import Mathlib

/-!
Rocket simulation: mission state machine and Euler integrator

A shallow embedding of `timer`, `keyboard` and `resetSimulation` of
`PES1PG24CS036_VR_OpenGL_Assignment.cpp`.

* The global variables `currentState`, `missionStatusText`, `mainBooster`,
  `upperStage`, `satellite` and `cameraAngle` become the fields of `Sim`;
  every callback is a function `Sim K → Sim K`.
* `float` arithmetic is modelled exactly, over an arbitrary linearly ordered
  field `K` (the rationals make every definition executable, the reals give
  the exact-arithmetic reading of the properties).
* `sqrt` comes from `<cmath>`, not from the program: it is a parameter of
  every function that calls it.  Properties that need it to be a square root
  say so with `IsSqrt`.
* The outcome of the crash test `sqrt(dist_sq) < EARTH_RADIUS` depends on the
  rounding of `float` when the booster is within rounding distance of the
  surface.  The property of the crash test is therefore stated on the value
  the block computes, for every `sqrt`; `roundSingle`, `sqrtSingle` and
  `distSqSingle` give the single-precision values over the rationals.
* The gravitational constant is a parameter of the `...With` functions, so
  that a property about another value of it can be stated; `timer` fixes it to
  `GRAVITATIONAL_CONSTANT`.
-/

namespace RocketSim

/-! ## Data model -/

/-- A 3D vector (`struct Vector3D`). -/
structure Vector3D (K : Type) where
  x : K
  y : K
  z : K

/-- A physical object of the simulation (`struct PhysicsObject`). -/
structure PhysicsObject (K : Type) where
  position : Vector3D K
  velocity : Vector3D K
  angle : K
  isVisible : Bool
  hasThrust : Bool

/-- The mission phases (`enum GameState`), in declaration order. -/
inductive GameState where
  | PRE_LAUNCH
  | LIFTOFF
  | STAGE_SEPARATION
  | ORBITAL_INSERTION
  | SATELLITE_DEPLOYMENT
  | MISSION_SUCCESS
  deriving DecidableEq, Repr

/-- The enumerator value of a phase: the integer the C++ comparisons
`currentState > PRE_LAUNCH` and `currentState >= STAGE_SEPARATION` compare. -/
def GameState.toNat : GameState → Nat
  | .PRE_LAUNCH => 0
  | .LIFTOFF => 1
  | .STAGE_SEPARATION => 2
  | .ORBITAL_INSERTION => 3
  | .SATELLITE_DEPLOYMENT => 4
  | .MISSION_SUCCESS => 5

/-- The mutable global state of the program that the callbacks read and write. -/
structure Sim (K : Type) where
  currentState : GameState
  missionStatusText : String
  mainBooster : PhysicsObject K
  upperStage : PhysicsObject K
  satellite : PhysicsObject K
  cameraAngle : K

section Defs

variable {K : Type} [LinearOrderedField K]

/-! ## Constants -/

/-- The macro `PI`. -/
def PI : K := 3.1415926535

/-- Thrust applied by the main booster. -/
def BOOSTER_THRUST : K := 23.0

/-- Thrust applied by the upper stage. -/
def UPPER_STAGE_THRUST : K := 18.0

/-- Simulation time step. -/
def TIMESTEP : K := 0.016

/-- Constant of the gravitational pull. -/
def GRAVITATIONAL_CONSTANT : K := 2500.0

/-- Height of the centre of the Earth in world coordinates. -/
def WORLD_OFFSET_Y : K := -100.0

/-- Radius of the Earth, also the crash radius of the booster. -/
def EARTH_RADIUS : K := 15.0

/-- Target altitude of the orbit. -/
def ORBIT_ALTITUDE : K := 45.0

/-! ## State at program start and `resetSimulation` -/

/-- A zero-initialised `Vector3D`. -/
def Vector3D.zero : Vector3D K := ⟨0, 0, 0⟩

/-- A zero-initialised `PhysicsObject` (a global before `resetSimulation`). -/
def PhysicsObject.zero : PhysicsObject K := ⟨Vector3D.zero, Vector3D.zero, 0, false, false⟩

/-- The globals as the C++ runtime initialises them, before `setupScene` runs. -/
def startup : Sim K :=
  { currentState := GameState.PRE_LAUNCH
    missionStatusText := ""
    mainBooster := PhysicsObject.zero
    upperStage := PhysicsObject.zero
    satellite := PhysicsObject.zero
    cameraAngle := 0.0 }

/-- The function `resetSimulation`. -/
def resetSimulation (s : Sim K) : Sim K :=
  let s1 := { s with currentState := GameState.PRE_LAUNCH }
  let s2 := { s1 with
    mainBooster := ⟨⟨0.0, EARTH_RADIUS + WORLD_OFFSET_Y, 0.0⟩, ⟨0.0, 0.0, 0.0⟩, 0.0, true, false⟩ }
  let s3 := { s2 with
    upperStage := ⟨⟨0.0, s2.mainBooster.position.y + 4.0, 0.0⟩, ⟨0.0, 0.0, 0.0⟩, 0.0, true, false⟩ }
  { s3 with
    satellite := ⟨⟨0.0, 0.0, 0.0⟩, ⟨0.0, 0.0, 0.0⟩, 0.0, false, false⟩ }

/-! ## `timer`: the state machine -/

/-- The `switch (currentState)` of `timer`, with the gravitational constant `G`.
Every case ends in `break`: one call runs one case. -/
def stateMachineWith (G : K) (sqrt : K → K) (s : Sim K) : Sim K :=
  match s.currentState with
  | .PRE_LAUNCH =>
    { s with missionStatusText := "Mission: Deploy Satellite. Press 'L' to Launch." }
  | .LIFTOFF =>
    let s1 := { s with missionStatusText := "Liftoff! Overcoming gravity's pull." }
    let s2 := { s1 with mainBooster := { s1.mainBooster with hasThrust := true } }
    if s2.mainBooster.position.y > 25.0 + WORLD_OFFSET_Y then
      { s2 with currentState := GameState.STAGE_SEPARATION }
    else s2
  | .STAGE_SEPARATION =>
    let s1 := { s with missionStatusText := "Main Booster Separation. Igniting Upper Stage." }
    let s2 := { s1 with mainBooster := { s1.mainBooster with hasThrust := false } }
    let s3 := { s2 with upperStage := { s2.upperStage with hasThrust := true } }
    let s4 := { s3 with
      mainBooster := { s3.mainBooster with
        velocity := { s3.mainBooster.velocity with x := -1.0 } } }
    { s4 with currentState := GameState.ORBITAL_INSERTION }
  | .ORBITAL_INSERTION =>
    let s1 := { s with missionStatusText := "Orbital Insertion Burn. Pushing to apogee." }
    if s1.upperStage.position.y ≥ ORBIT_ALTITUDE + WORLD_OFFSET_Y then
      let s2 := { s1 with upperStage := { s1.upperStage with hasThrust := false } }
      let orbital_v := sqrt (G / ORBIT_ALTITUDE)
      let s3 := { s2 with
        upperStage := { s2.upperStage with
          velocity := { s2.upperStage.velocity with x := orbital_v } } }
      let s4 := { s3 with
        upperStage := { s3.upperStage with
          velocity := { s3.upperStage.velocity with y := 0.0 } } }
      { s4 with currentState := GameState.SATELLITE_DEPLOYMENT }
    else s1
  | .SATELLITE_DEPLOYMENT =>
    let s1 := { s with missionStatusText := "Apogee reached. Deploying satellite." }
    let s2 := { s1 with upperStage := { s1.upperStage with isVisible := false } }
    let s3 := { s2 with satellite := { s2.satellite with isVisible := true } }
    let s4 := { s3 with satellite := { s3.satellite with position := s3.upperStage.position } }
    let s5 := { s4 with satellite := { s4.satellite with velocity := s4.upperStage.velocity } }
    { s5 with currentState := GameState.MISSION_SUCCESS }
  | .MISSION_SUCCESS =>
    { s with missionStatusText := "Mission Successful. Satellite is in stable orbit." }

/-! ## `timer`: the physics update -/

/-- The camera update at the head of the physics block. -/
def cameraUpdate (s : Sim K) : Sim K :=
  let s1 := { s with cameraAngle := s.cameraAngle + 0.0005 }
  if s1.cameraAngle > 2.0 * PI then
    { s1 with cameraAngle := s1.cameraAngle - 2.0 * PI }
  else s1

/-- The squared planar distance of an object to the centre of the Earth, as
the physics blocks compute it: `dist_sq` after the floor at `1.0f`. -/
def distSq (o : PhysicsObject K) : K :=
  let dir_to_earth : Vector3D K := ⟨-o.position.x, WORLD_OFFSET_Y - o.position.y, 0⟩
  let dist_sq := dir_to_earth.x * dir_to_earth.x + dir_to_earth.y * dir_to_earth.y
  if dist_sq < 1.0 then 1.0 else dist_sq

/-- The integration step of the booster block: gravity, thrust, position
(the statements of the block up to the position update). -/
def boosterIntegrate (G : K) (sqrt : K → K) (b : PhysicsObject K) : PhysicsObject K :=
  let dir_to_earth : Vector3D K := ⟨-b.position.x, WORLD_OFFSET_Y - b.position.y, 0⟩
  let dist_sq := distSq b
  let grav_mag := G / dist_sq
  let b1 := { b with velocity := { b.velocity with
    x := b.velocity.x + (dir_to_earth.x / sqrt dist_sq) * grav_mag * TIMESTEP } }
  let b2 := { b1 with velocity := { b1.velocity with
    y := b1.velocity.y + (dir_to_earth.y / sqrt dist_sq) * grav_mag * TIMESTEP } }
  let b3 :=
    if b2.hasThrust then
      { b2 with velocity := { b2.velocity with y := b2.velocity.y + BOOSTER_THRUST * TIMESTEP } }
    else b2
  let b4 := { b3 with position := { b3.position with
    x := b3.position.x + b3.velocity.x * TIMESTEP } }
  { b4 with position := { b4.position with
    y := b4.position.y + b4.velocity.y * TIMESTEP } }

/-- The booster block of `timer` up to the position update: the visibility
guard and the integration, before the crash check and the tumble. -/
def boosterStep (G : K) (sqrt : K → K) (b : PhysicsObject K) : PhysicsObject K :=
  if b.isVisible then boosterIntegrate G sqrt b else b

/-- The booster block of `timer`: integration, crash check against the
distance computed before the position update, tumble. -/
def boosterPhysics (G : K) (sqrt : K → K) (s : Sim K) : Sim K :=
  if s.mainBooster.isVisible then
    let dist_sq := distSq s.mainBooster
    let s1 := { s with mainBooster := boosterIntegrate G sqrt s.mainBooster }
    let s2 :=
      if sqrt dist_sq < EARTH_RADIUS then
        { s1 with mainBooster := { s1.mainBooster with isVisible := false } }
      else s1
    if s2.currentState.toNat ≥ GameState.STAGE_SEPARATION.toNat then
      { s2 with mainBooster := { s2.mainBooster with angle := s2.mainBooster.angle + 1.0 } }
    else s2
  else s

/-- The integration step of the upper-stage block. -/
def upperStageIntegrate (G : K) (sqrt : K → K) (u : PhysicsObject K) : PhysicsObject K :=
  let dir_to_earth : Vector3D K := ⟨-u.position.x, WORLD_OFFSET_Y - u.position.y, 0⟩
  let dist_sq := distSq u
  let grav_mag := G / dist_sq
  let u1 := { u with velocity := { u.velocity with
    x := u.velocity.x + (dir_to_earth.x / sqrt dist_sq) * grav_mag * TIMESTEP } }
  let u2 := { u1 with velocity := { u1.velocity with
    y := u1.velocity.y + (dir_to_earth.y / sqrt dist_sq) * grav_mag * TIMESTEP } }
  let u3 :=
    if u2.hasThrust then
      { u2 with velocity := { u2.velocity with
        y := u2.velocity.y + UPPER_STAGE_THRUST * TIMESTEP } }
    else u2
  let u4 := { u3 with position := { u3.position with
    x := u3.position.x + u3.velocity.x * TIMESTEP } }
  { u4 with position := { u4.position with
    y := u4.position.y + u4.velocity.y * TIMESTEP } }

/-- The upper-stage block of `timer`. -/
def upperStagePhysics (G : K) (sqrt : K → K) (s : Sim K) : Sim K :=
  if s.upperStage.isVisible ∧ s.currentState.toNat ≥ GameState.STAGE_SEPARATION.toNat then
    { s with upperStage := upperStageIntegrate G sqrt s.upperStage }
  else s

/-- The block of `timer` that locks the upper stage to the booster during liftoff. -/
def lockUpperStage (s : Sim K) : Sim K :=
  if s.currentState = GameState.LIFTOFF then
    let s1 := { s with upperStage := { s.upperStage with
      position := { s.upperStage.position with x := s.mainBooster.position.x } } }
    let s2 := { s1 with upperStage := { s1.upperStage with
      position := { s1.upperStage.position with y := s1.mainBooster.position.y + 4.0 } } }
    { s2 with upperStage := { s2.upperStage with velocity := s2.mainBooster.velocity } }
  else s

/-- The integration step of the satellite block (no thrust term). -/
def satelliteIntegrate (G : K) (sqrt : K → K) (o : PhysicsObject K) : PhysicsObject K :=
  let dir_to_earth : Vector3D K := ⟨-o.position.x, WORLD_OFFSET_Y - o.position.y, 0⟩
  let dist_sq := distSq o
  let grav_mag := G / dist_sq
  let o1 := { o with velocity := { o.velocity with
    x := o.velocity.x + (dir_to_earth.x / sqrt dist_sq) * grav_mag * TIMESTEP } }
  let o2 := { o1 with velocity := { o1.velocity with
    y := o1.velocity.y + (dir_to_earth.y / sqrt dist_sq) * grav_mag * TIMESTEP } }
  let o3 := { o2 with position := { o2.position with
    x := o2.position.x + o2.velocity.x * TIMESTEP } }
  { o3 with position := { o3.position with
    y := o3.position.y + o3.velocity.y * TIMESTEP } }

/-- The satellite block of `timer`. -/
def satellitePhysics (G : K) (sqrt : K → K) (s : Sim K) : Sim K :=
  if s.satellite.isVisible then
    { s with satellite := satelliteIntegrate G sqrt s.satellite }
  else s

/-- The `if (currentState > PRE_LAUNCH)` block of `timer`. -/
def physicsWith (G : K) (sqrt : K → K) (s : Sim K) : Sim K :=
  if s.currentState.toNat > GameState.PRE_LAUNCH.toNat then
    satellitePhysics G sqrt
      (lockUpperStage (upperStagePhysics G sqrt (boosterPhysics G sqrt (cameraUpdate s))))
  else s

/-- The callback `timer` with the gravitational constant `G`: the state
machine, then the physics update.  (The redraw request and the re-arming of
the timer do not touch the state.) -/
def timerWith (G : K) (sqrt : K → K) (s : Sim K) : Sim K :=
  physicsWith G sqrt (stateMachineWith G sqrt s)

/-- The callback `timer`. -/
def timer (sqrt : K → K) (s : Sim K) : Sim K :=
  timerWith GRAVITATIONAL_CONSTANT sqrt s

/-! ## `keyboard` -/

/-- The state changes of the callback `keyboard` (the cursor position `_x`, `_y`
is not used).  For the escape key the program then exits, see `keyboardExits`. -/
def keyboard (key : Char) (_x _y : Int) (s : Sim K) : Sim K :=
  let s1 :=
    if (key = 'l' ∨ key = 'L') ∧ s.currentState = GameState.PRE_LAUNCH then
      { s with currentState := GameState.LIFTOFF }
    else s
  if key = 'r' ∨ key = 'R' then resetSimulation s1 else s1

/-- Whether `keyboard` ends the process (`exit(0)` on ASCII 27). -/
def keyboardExits (key : Char) : Bool :=
  key.toNat = 27

/-! ## Runs -/

/-- The inputs the properties range over: a timer tick, or a launch request
typed as `l` or as `L`. -/
inductive Event where
  | tick
  | launchLower
  | launchUpper
  deriving DecidableEq, Repr

/-- The callback an event triggers. -/
def Event.apply (sqrt : K → K) (e : Event) (s : Sim K) : Sim K :=
  match e with
  | .tick => timer sqrt s
  | .launchLower => keyboard 'l' 0 0 s
  | .launchUpper => keyboard 'L' 0 0 s

/-- The state after a finite sequence of events, first event first. -/
def run (sqrt : K → K) (es : List Event) (s : Sim K) : Sim K :=
  es.foldl (fun acc e => e.apply sqrt acc) s

/-- The states reachable from a reset state by ticks and launch requests. -/
def Reachable (sqrt : K → K) (s : Sim K) : Prop :=
  ∃ (s0 : Sim K) (es : List Event), s = run sqrt es (resetSimulation s0)

/-- The function `sqrt` is a square root on the non-negative numbers. -/
def IsSqrt (sqrt : K → K) : Prop :=
  ∀ x : K, 0 ≤ x → 0 ≤ sqrt x ∧ sqrt x * sqrt x = x

/-! ## Sample states -/

/-- A state during liftoff with the booster above the separation altitude:
the reset state, launched, with the booster at height `-70` climbing at `5`. -/
def liftoffHigh : Sim K :=
  { resetSimulation startup with
    currentState := GameState.LIFTOFF
    mainBooster := ⟨⟨0, -70, 0⟩, ⟨0, 5, 0⟩, 0, true, true⟩
    upperStage := ⟨⟨0, -66, 0⟩, ⟨0, 5, 0⟩, 0, true, false⟩ }

/-- A state during the orbital insertion burn with the upper stage at the
target altitude `ORBIT_ALTITUDE + WORLD_OFFSET_Y = -55`, climbing at `5`. -/
def insertionAtTarget : Sim K :=
  { resetSimulation startup with
    currentState := GameState.ORBITAL_INSERTION
    mainBooster := ⟨⟨-3, -80, 0⟩, ⟨-1, -2, 0⟩, 40, true, false⟩
    upperStage := ⟨⟨0, -55, 0⟩, ⟨0, 5, 0⟩, 0, true, true⟩ }

/-- A state in the deployment phase: the upper stage at height `-55` moving
horizontally at `7`, the satellite not yet released. -/
def deploymentReady : Sim K :=
  { resetSimulation startup with
    currentState := GameState.SATELLITE_DEPLOYMENT
    mainBooster := ⟨⟨-3, -80, 0⟩, ⟨-1, -2, 0⟩, 40, true, false⟩
    upperStage := ⟨⟨0, -55, 0⟩, ⟨7, 0, 0⟩, 0, true, false⟩ }

/-- The thrust flags each phase allows: none before launch and after the
insertion burn, at most the booster during liftoff, the booster alone in
`STAGE_SEPARATION`, the upper stage alone in `ORBITAL_INSERTION`. -/
def ThrustInv (s : Sim K) : Prop :=
  match s.currentState with
  | .PRE_LAUNCH => s.mainBooster.hasThrust = false ∧ s.upperStage.hasThrust = false
  | .LIFTOFF => s.upperStage.hasThrust = false
  | .STAGE_SEPARATION => s.mainBooster.hasThrust = true ∧ s.upperStage.hasThrust = false
  | .ORBITAL_INSERTION => s.mainBooster.hasThrust = false ∧ s.upperStage.hasThrust = true
  | .SATELLITE_DEPLOYMENT => s.mainBooster.hasThrust = false ∧ s.upperStage.hasThrust = false
  | .MISSION_SUCCESS => s.mainBooster.hasThrust = false ∧ s.upperStage.hasThrust = false

/-- A state during liftoff with the booster exactly at the separation
threshold `25 + WORLD_OFFSET_Y = -75`. -/
def liftoffAtThreshold : Sim K :=
  { resetSimulation startup with
    currentState := GameState.LIFTOFF
    mainBooster := ⟨⟨0, -75, 0⟩, ⟨0, 5, 0⟩, 0, true, true⟩
    upperStage := ⟨⟨0, -71, 0⟩, ⟨0, 5, 0⟩, 0, true, false⟩ }

/-- A state in `STAGE_SEPARATION`, as the tick that ends liftoff leaves it:
the booster at `(3, -74, 0)` climbing at `(2, 6, 0)`, still thrusting. -/
def separationPending : Sim K :=
  { resetSimulation startup with
    currentState := GameState.STAGE_SEPARATION
    mainBooster := ⟨⟨3, -74, 0⟩, ⟨2, 6, 0⟩, 1, true, true⟩
    upperStage := ⟨⟨3, -70, 0⟩, ⟨2, 6, 0⟩, 0, true, false⟩ }

/-- The squared planar distance of an object to the centre of the Earth
`(0, WORLD_OFFSET_Y)`, before the floor at `1.0f`:
`dir_to_earth.x * dir_to_earth.x + dir_to_earth.y * dir_to_earth.y`. -/
def planarDistSq (o : PhysicsObject K) : K :=
  let dir_to_earth : Vector3D K := ⟨-o.position.x, WORLD_OFFSET_Y - o.position.y, 0⟩
  dir_to_earth.x * dir_to_earth.x + dir_to_earth.y * dir_to_earth.y

/-- The gravity term the three physics blocks add to `velocity.x` and
`velocity.y`: `(dir_to_earth / sqrt(dist_sq)) * grav_mag * TIMESTEP`, with
`dist_sq` after the floor. -/
def gravityIncrement (G : K) (sqrt : K → K) (o : PhysicsObject K) : K × K :=
  let dir_to_earth : Vector3D K := ⟨-o.position.x, WORLD_OFFSET_Y - o.position.y, 0⟩
  let dist_sq := distSq o
  let grav_mag := G / dist_sq
  ((dir_to_earth.x / sqrt dist_sq) * grav_mag * TIMESTEP,
    (dir_to_earth.y / sqrt dist_sq) * grav_mag * TIMESTEP)

/-- A state after deployment with the visible satellite at rest half a unit
below the centre of the Earth, at `(0, -100.5, 0)`. -/
def satelliteNearCentre : Sim K :=
  { resetSimulation startup with
    currentState := GameState.MISSION_SUCCESS
    mainBooster := ⟨⟨-30, -90, 0⟩, ⟨-1, -2, 0⟩, 40, false, false⟩
    upperStage := ⟨⟨0, -55, 0⟩, ⟨7, 0, 0⟩, 0, false, false⟩
    satellite := ⟨⟨0, -100.5, 0⟩, ⟨0, 0, 0⟩, 0, true, false⟩ }

/-- The state right after the launch request in the reset state. -/
def launched : Sim K :=
  keyboard 'l' 0 0 (resetSimulation startup)

/-- A lower bound on the climb of the booster after `n` ticks of liftoff from
the launch pad: still in `LIFTOFF`, visible, straight above the centre of the
Earth, at least `(19/100) * n` fast and at least `(19/12500) * n * (n + 1)`
above the pad. -/
def LiftoffClimb (n : ℕ) (s : Sim K) : Prop :=
  s.currentState = GameState.LIFTOFF ∧
  s.mainBooster.isVisible = true ∧
  s.mainBooster.position.x = 0 ∧
  s.mainBooster.velocity.x = 0 ∧
  (19 / 100 : K) * n ≤ s.mainBooster.velocity.y ∧
  -85 + (19 / 12500 : K) * n * (n + 1) ≤ s.mainBooster.position.y

/-! ## Single precision

Rounding to `float` and the `sqrt` of `float`, over the rationals: with them
the crash test of the booster block can be run on the values the program
computes. -/

end Defs

/-! ## Lemmas on the parts of `timer` -/

section Lemmas

variable {K : Type} [LinearOrderedField K]

theorem cameraUpdate_fields (s : Sim K) :
    (cameraUpdate s).currentState = s.currentState ∧
    (cameraUpdate s).mainBooster = s.mainBooster ∧
    (cameraUpdate s).upperStage = s.upperStage ∧
    (cameraUpdate s).satellite = s.satellite := by
  unfold cameraUpdate
  simp only []
  split_ifs <;> exact ⟨rfl, rfl, rfl, rfl⟩

theorem boosterPhysics_fields (G : K) (sqrt : K → K) (s : Sim K) :
    (boosterPhysics G sqrt s).currentState = s.currentState ∧
    (boosterPhysics G sqrt s).upperStage = s.upperStage ∧
    (boosterPhysics G sqrt s).satellite = s.satellite := by
  unfold boosterPhysics
  simp only []
  split_ifs <;> exact ⟨rfl, rfl, rfl⟩

theorem upperStagePhysics_fields (G : K) (sqrt : K → K) (s : Sim K) :
    (upperStagePhysics G sqrt s).currentState = s.currentState ∧
    (upperStagePhysics G sqrt s).mainBooster = s.mainBooster ∧
    (upperStagePhysics G sqrt s).satellite = s.satellite := by
  unfold upperStagePhysics
  split_ifs <;> exact ⟨rfl, rfl, rfl⟩

theorem lockUpperStage_fields (s : Sim K) :
    (lockUpperStage s).currentState = s.currentState ∧
    (lockUpperStage s).mainBooster = s.mainBooster ∧
    (lockUpperStage s).satellite = s.satellite := by
  unfold lockUpperStage
  split_ifs <;> exact ⟨rfl, rfl, rfl⟩

theorem satellitePhysics_fields (G : K) (sqrt : K → K) (s : Sim K) :
    (satellitePhysics G sqrt s).currentState = s.currentState ∧
    (satellitePhysics G sqrt s).mainBooster = s.mainBooster ∧
    (satellitePhysics G sqrt s).upperStage = s.upperStage := by
  unfold satellitePhysics
  split_ifs <;> exact ⟨rfl, rfl, rfl⟩

theorem physicsWith_currentState (G : K) (sqrt : K → K) (s : Sim K) :
    (physicsWith G sqrt s).currentState = s.currentState := by
  unfold physicsWith
  split_ifs
  · rw [(satellitePhysics_fields _ _ _).1, (lockUpperStage_fields _).1,
      (upperStagePhysics_fields _ _ _).1, (boosterPhysics_fields _ _ _).1,
      (cameraUpdate_fields _).1]
  · rfl

theorem stateMachineWith_currentState (G : K) (sqrt : K → K) (s : Sim K) :
    (stateMachineWith G sqrt s).currentState =
      match s.currentState with
      | .PRE_LAUNCH => .PRE_LAUNCH
      | .LIFTOFF =>
        if s.mainBooster.position.y > 25.0 + WORLD_OFFSET_Y then .STAGE_SEPARATION
        else .LIFTOFF
      | .STAGE_SEPARATION => .ORBITAL_INSERTION
      | .ORBITAL_INSERTION =>
        if s.upperStage.position.y ≥ ORBIT_ALTITUDE + WORLD_OFFSET_Y then .SATELLITE_DEPLOYMENT
        else .ORBITAL_INSERTION
      | .SATELLITE_DEPLOYMENT => .MISSION_SUCCESS
      | .MISSION_SUCCESS => .MISSION_SUCCESS := by
  unfold stateMachineWith
  cases h : s.currentState <;> simp only [h] <;> split_ifs <;> simp [h]

theorem timer_currentState (sqrt : K → K) (s : Sim K) :
    (timer sqrt s).currentState =
      (stateMachineWith GRAVITATIONAL_CONSTANT sqrt s).currentState := by
  unfold timer timerWith
  exact physicsWith_currentState _ _ _

theorem timer_phase_le (sqrt : K → K) (s : Sim K) :
    s.currentState.toNat ≤ (timer sqrt s).currentState.toNat := by
  rw [timer_currentState, stateMachineWith_currentState]
  cases h : s.currentState <;> simp only [] <;> (try split_ifs) <;> simp [GameState.toNat]

theorem keyboard_launch_phase_le (key : Char) (hk : key = 'l' ∨ key = 'L') (s : Sim K) :
    s.currentState.toNat ≤ (keyboard key 0 0 s).currentState.toNat := by
  unfold keyboard
  have h1 : ¬ (key = 'r' ∨ key = 'R') := by
    rcases hk with rfl | rfl <;> decide
  simp only [h1, if_false]
  split_ifs with h
  · simp [h.2, GameState.toNat]
  · exact le_refl _

theorem apply_phase_le (sqrt : K → K) (e : Event) (s : Sim K) :
    s.currentState.toNat ≤ (e.apply sqrt s).currentState.toNat := by
  cases e
  · exact timer_phase_le sqrt s
  · exact keyboard_launch_phase_le _ (Or.inl rfl) s
  · exact keyboard_launch_phase_le _ (Or.inr rfl) s

theorem timer_of_prelaunch (sqrt : K → K) (s : Sim K)
    (h : s.currentState = GameState.PRE_LAUNCH) :
    timer sqrt s =
      { s with missionStatusText := "Mission: Deploy Satellite. Press 'L' to Launch." } := by
  have h1 : stateMachineWith GRAVITATIONAL_CONSTANT sqrt s =
      { s with missionStatusText := "Mission: Deploy Satellite. Press 'L' to Launch." } := by
    simp only [stateMachineWith, h]
  unfold timer timerWith
  rw [h1]
  unfold physicsWith
  simp [h, GameState.toNat]

theorem timer_phase_of_liftoff_high (sqrt : K → K) (s : Sim K)
    (h : s.currentState = GameState.LIFTOFF)
    (hy : s.mainBooster.position.y > 25.0 + WORLD_OFFSET_Y) :
    (timer sqrt s).currentState = GameState.STAGE_SEPARATION := by
  rw [timer_currentState, stateMachineWith_currentState]
  simp only [h, if_pos hy]

theorem timer_phase_of_separation (sqrt : K → K) (s : Sim K)
    (h : s.currentState = GameState.STAGE_SEPARATION) :
    (timer sqrt s).currentState = GameState.ORBITAL_INSERTION := by
  rw [timer_currentState, stateMachineWith_currentState]
  simp only [h]

theorem liftoffHigh_above_threshold :
    (liftoffHigh : Sim ℝ).mainBooster.position.y > 25.0 + WORLD_OFFSET_Y := by
  show (-70 : ℝ) > 25.0 + WORLD_OFFSET_Y
  norm_num [WORLD_OFFSET_Y]

theorem physicsWith_of_launched (G : K) (sqrt : K → K) (s : Sim K)
    (h : s.currentState ≠ GameState.PRE_LAUNCH) :
    physicsWith G sqrt s =
      satellitePhysics G sqrt
        (lockUpperStage (upperStagePhysics G sqrt (boosterPhysics G sqrt (cameraUpdate s)))) := by
  unfold physicsWith
  have h1 : s.currentState.toNat > GameState.PRE_LAUNCH.toNat := by
    cases h2 : s.currentState <;> simp_all [GameState.toNat]
  rw [if_pos h1]

theorem physicsWith_satellite (G : K) (sqrt : K → K) (s : Sim K)
    (h : s.currentState ≠ GameState.PRE_LAUNCH) :
    (physicsWith G sqrt s).satellite =
      if s.satellite.isVisible then satelliteIntegrate G sqrt s.satellite else s.satellite := by
  rw [physicsWith_of_launched G sqrt s h]
  have e : (lockUpperStage (upperStagePhysics G sqrt
      (boosterPhysics G sqrt (cameraUpdate s)))).satellite = s.satellite := by
    rw [(lockUpperStage_fields _).2.2, (upperStagePhysics_fields _ _ _).2.2,
      (boosterPhysics_fields _ _ _).2.2, (cameraUpdate_fields _).2.2.2]
  unfold satellitePhysics
  rw [e]
  split_ifs <;> simp [e]

theorem physicsWith_upperStage_of_separated (G : K) (sqrt : K → K) (s : Sim K)
    (h : s.currentState.toNat ≥ GameState.STAGE_SEPARATION.toNat) :
    (physicsWith G sqrt s).upperStage =
      if s.upperStage.isVisible then upperStageIntegrate G sqrt s.upperStage
      else s.upperStage := by
  have hne : s.currentState ≠ GameState.PRE_LAUNCH := by
    intro h0
    simp [h0, GameState.toNat] at h
  have hnl : s.currentState ≠ GameState.LIFTOFF := by
    intro h0
    simp [h0, GameState.toNat] at h
  rw [physicsWith_of_launched G sqrt s hne, (satellitePhysics_fields _ _ _).2.2]
  have ec : (boosterPhysics G sqrt (cameraUpdate s)).currentState = s.currentState := by
    rw [(boosterPhysics_fields _ _ _).1, (cameraUpdate_fields _).1]
  have eu : (boosterPhysics G sqrt (cameraUpdate s)).upperStage = s.upperStage := by
    rw [(boosterPhysics_fields _ _ _).2.1, (cameraUpdate_fields _).2.2.1]
  have el : (upperStagePhysics G sqrt (boosterPhysics G sqrt (cameraUpdate s))).currentState
      ≠ GameState.LIFTOFF := by
    rw [(upperStagePhysics_fields _ _ _).1, ec]
    exact hnl
  unfold lockUpperStage
  rw [if_neg el]
  unfold upperStagePhysics
  rw [ec, eu]
  by_cases hv : s.upperStage.isVisible = true
  · rw [if_pos ⟨hv, h⟩, if_pos hv]
  · rw [if_neg (fun hc => hv hc.1), if_neg hv, eu]

theorem stateMachineWith_of_insertion_end (G : K) (sqrt : K → K) (s : Sim K)
    (h : s.currentState = GameState.ORBITAL_INSERTION)
    (hy : s.upperStage.position.y ≥ ORBIT_ALTITUDE + WORLD_OFFSET_Y) :
    stateMachineWith G sqrt s =
      { s with
        missionStatusText := "Orbital Insertion Burn. Pushing to apogee."
        upperStage := { s.upperStage with
          hasThrust := false
          velocity := ⟨sqrt (G / ORBIT_ALTITUDE), 0.0, s.upperStage.velocity.z⟩ }
        currentState := GameState.SATELLITE_DEPLOYMENT } := by
  simp only [stateMachineWith, h, if_pos hy]

theorem stateMachineWith_of_deployment (G : K) (sqrt : K → K) (s : Sim K)
    (h : s.currentState = GameState.SATELLITE_DEPLOYMENT) :
    stateMachineWith G sqrt s =
      { s with
        missionStatusText := "Apogee reached. Deploying satellite."
        upperStage := { s.upperStage with isVisible := false }
        satellite := { s.satellite with
          isVisible := true
          position := s.upperStage.position
          velocity := s.upperStage.velocity }
        currentState := GameState.MISSION_SUCCESS } := by
  simp only [stateMachineWith, h]

theorem timer_upperStage_of_insertion_end (sqrt : K → K) (s : Sim K)
    (h : s.currentState = GameState.ORBITAL_INSERTION)
    (hy : s.upperStage.position.y ≥ ORBIT_ALTITUDE + WORLD_OFFSET_Y)
    (hv : s.upperStage.isVisible = true) :
    (timer sqrt s).upperStage =
      upperStageIntegrate GRAVITATIONAL_CONSTANT sqrt
        { s.upperStage with
          hasThrust := false
          velocity := ⟨sqrt (GRAVITATIONAL_CONSTANT / ORBIT_ALTITUDE), 0.0,
            s.upperStage.velocity.z⟩ } := by
  unfold timer timerWith
  rw [stateMachineWith_of_insertion_end _ sqrt s h hy,
    physicsWith_upperStage_of_separated _ _ _ (by simp [GameState.toNat])]
  simp only [hv, if_true]

theorem timer_satellite_of_deployment (sqrt : K → K) (s : Sim K)
    (h : s.currentState = GameState.SATELLITE_DEPLOYMENT) :
    (timer sqrt s).satellite =
      satelliteIntegrate GRAVITATIONAL_CONSTANT sqrt
        { s.satellite with
          isVisible := true
          position := s.upperStage.position
          velocity := s.upperStage.velocity } := by
  unfold timer timerWith
  rw [stateMachineWith_of_deployment _ sqrt s h,
    physicsWith_satellite _ _ _ (by simp)]
  simp only [if_true]

theorem timer_upperStage_of_deployment (sqrt : K → K) (s : Sim K)
    (h : s.currentState = GameState.SATELLITE_DEPLOYMENT) :
    (timer sqrt s).upperStage = { s.upperStage with isVisible := false } := by
  unfold timer timerWith
  rw [stateMachineWith_of_deployment _ sqrt s h,
    physicsWith_upperStage_of_separated _ _ _ (by simp [GameState.toNat])]
  simp

theorem sqrt_mul_self_of_isSqrt (sqrt : K → K) (hs : IsSqrt sqrt) (v : K) (hv : 0 ≤ v) :
    sqrt (v * v) = v := by
  obtain ⟨h0, h1⟩ := hs (v * v) (mul_nonneg hv hv)
  nlinarith [mul_nonneg h0 hv, sq_nonneg (sqrt (v * v) - v), sq_nonneg (sqrt (v * v) + v)]

theorem real_isSqrt : IsSqrt Real.sqrt := fun x hx =>
  ⟨Real.sqrt_nonneg x, Real.mul_self_sqrt hx⟩

theorem distSq_pos (o : PhysicsObject K) : 0 < distSq o := by
  unfold distSq
  simp only []
  split_ifs with h
  · norm_num
  · push_neg at h
    exact lt_of_lt_of_le (by norm_num) h

theorem sqrt_pos_of_isSqrt (sqrt : K → K) (hs : IsSqrt sqrt) (x : K) (hx : 0 < x) :
    0 < sqrt x := by
  obtain ⟨h0, h1⟩ := hs x (le_of_lt hx)
  rcases eq_or_lt_of_le h0 with h2 | h2
  · rw [← h2] at h1
    simp at h1
    exact absurd h1 (ne_of_lt hx)
  · exact h2

theorem upperStageIntegrate_velocity (G : K) (sqrt : K → K) (u : PhysicsObject K) :
    (upperStageIntegrate G sqrt u).velocity.x =
      u.velocity.x + (-u.position.x / sqrt (distSq u)) * (G / distSq u) * TIMESTEP ∧
    (upperStageIntegrate G sqrt u).velocity.y =
      (u.velocity.y +
        ((WORLD_OFFSET_Y - u.position.y) / sqrt (distSq u)) * (G / distSq u) * TIMESTEP) +
      (if u.hasThrust then UPPER_STAGE_THRUST * TIMESTEP else 0) ∧
    (upperStageIntegrate G sqrt u).velocity.z = u.velocity.z := by
  unfold upperStageIntegrate
  simp only []
  split_ifs <;> simp

theorem satelliteIntegrate_fields (G : K) (sqrt : K → K) (o : PhysicsObject K) :
    (satelliteIntegrate G sqrt o).velocity.x =
      o.velocity.x + (-o.position.x / sqrt (distSq o)) * (G / distSq o) * TIMESTEP ∧
    (satelliteIntegrate G sqrt o).velocity.y =
      o.velocity.y +
        ((WORLD_OFFSET_Y - o.position.y) / sqrt (distSq o)) * (G / distSq o) * TIMESTEP ∧
    (satelliteIntegrate G sqrt o).velocity.z = o.velocity.z ∧
    (satelliteIntegrate G sqrt o).position.x =
      o.position.x + (satelliteIntegrate G sqrt o).velocity.x * TIMESTEP ∧
    (satelliteIntegrate G sqrt o).position.y =
      o.position.y + (satelliteIntegrate G sqrt o).velocity.y * TIMESTEP ∧
    (satelliteIntegrate G sqrt o).position.z = o.position.z ∧
    (satelliteIntegrate G sqrt o).isVisible = o.isVisible ∧
    (satelliteIntegrate G sqrt o).hasThrust = o.hasThrust ∧
    (satelliteIntegrate G sqrt o).angle = o.angle := by
  unfold satelliteIntegrate
  exact ⟨rfl, rfl, rfl, rfl, rfl, rfl, rfl, rfl, rfl⟩

theorem timer_phase_of_insertion_end (sqrt : K → K) (s : Sim K)
    (h : s.currentState = GameState.ORBITAL_INSERTION)
    (hy : s.upperStage.position.y ≥ ORBIT_ALTITUDE + WORLD_OFFSET_Y) :
    (timer sqrt s).currentState = GameState.SATELLITE_DEPLOYMENT := by
  rw [timer_currentState, stateMachineWith_currentState]
  simp only [h, if_pos hy]

theorem upperStageIntegrate_after_cutoff (G : K) (sqrt : K → K) (u : PhysicsObject K)
    (vx : K) :
    (upperStageIntegrate G sqrt
        { u with hasThrust := false, velocity := ⟨vx, 0.0, u.velocity.z⟩ }).velocity.x =
      vx + (-u.position.x / sqrt (distSq u)) * (G / distSq u) * TIMESTEP ∧
    (upperStageIntegrate G sqrt
        { u with hasThrust := false, velocity := ⟨vx, 0.0, u.velocity.z⟩ }).velocity.y =
      ((WORLD_OFFSET_Y - u.position.y) / sqrt (distSq u)) * (G / distSq u) * TIMESTEP ∧
    (upperStageIntegrate G sqrt
        { u with hasThrust := false, velocity := ⟨vx, 0.0, u.velocity.z⟩ }).velocity.z =
      u.velocity.z := by
  obtain ⟨h1, h2, h3⟩ := upperStageIntegrate_velocity G sqrt
    { u with hasThrust := false, velocity := ⟨vx, 0.0, u.velocity.z⟩ }
  have hd : distSq ({ u with hasThrust := false, velocity := ⟨vx, 0.0, u.velocity.z⟩ } :
      PhysicsObject K) = distSq u := rfl
  rw [hd] at h1 h2
  refine ⟨h1, ?_, h3⟩
  rw [h2]
  norm_num

theorem real_sqrt_2025 : Real.sqrt 2025 = 45 := by
  rw [show (2025 : ℝ) = 45 * 45 by norm_num]
  exact Real.sqrt_mul_self (by norm_num)

theorem distSq_at_target (vel : Vector3D ℝ) (a : ℝ) (v t : Bool) :
    distSq (⟨⟨0, -55, 0⟩, vel, a, v, t⟩ : PhysicsObject ℝ) = 2025 := by
  unfold distSq
  norm_num [WORLD_OFFSET_Y]

theorem insertionAtTarget_at_target :
    (insertionAtTarget : Sim ℝ).upperStage.position.y ≥ ORBIT_ALTITUDE + WORLD_OFFSET_Y := by
  show (-55 : ℝ) ≥ ORBIT_ALTITUDE + WORLD_OFFSET_Y
  norm_num [ORBIT_ALTITUDE, WORLD_OFFSET_Y]

theorem timer_insertionAtTarget_velocity_y :
    (timer Real.sqrt (insertionAtTarget : Sim ℝ)).upperStage.velocity.y = -8 / 405 := by
  rw [timer_upperStage_of_insertion_end Real.sqrt insertionAtTarget rfl
    insertionAtTarget_at_target rfl, (upperStageIntegrate_velocity _ _ _).2.1]
  have hd := distSq_at_target (⟨Real.sqrt (GRAVITATIONAL_CONSTANT / ORBIT_ALTITUDE), 0.0, 0⟩)
    0 true false
  simp only [insertionAtTarget, resetSimulation] at hd ⊢
  rw [hd, real_sqrt_2025]
  norm_num [WORLD_OFFSET_Y, GRAVITATIONAL_CONSTANT, TIMESTEP]

theorem timer_phase_of_deployment (sqrt : K → K) (s : Sim K)
    (h : s.currentState = GameState.SATELLITE_DEPLOYMENT) :
    (timer sqrt s).currentState = GameState.MISSION_SUCCESS := by
  rw [timer_currentState, stateMachineWith_currentState]
  simp only [h]

theorem timer_satellite_motion_of_deployment (sqrt : K → K) (s : Sim K)
    (h : s.currentState = GameState.SATELLITE_DEPLOYMENT) :
    (timer sqrt s).satellite.velocity.x =
      s.upperStage.velocity.x +
        (-s.upperStage.position.x / sqrt (distSq s.upperStage)) *
          (GRAVITATIONAL_CONSTANT / distSq s.upperStage) * TIMESTEP ∧
    (timer sqrt s).satellite.velocity.y =
      s.upperStage.velocity.y +
        ((WORLD_OFFSET_Y - s.upperStage.position.y) / sqrt (distSq s.upperStage)) *
          (GRAVITATIONAL_CONSTANT / distSq s.upperStage) * TIMESTEP ∧
    (timer sqrt s).satellite.velocity.z = s.upperStage.velocity.z ∧
    (timer sqrt s).satellite.position.x =
      s.upperStage.position.x + (timer sqrt s).satellite.velocity.x * TIMESTEP ∧
    (timer sqrt s).satellite.position.y =
      s.upperStage.position.y + (timer sqrt s).satellite.velocity.y * TIMESTEP ∧
    (timer sqrt s).satellite.position.z = s.upperStage.position.z ∧
    (timer sqrt s).satellite.isVisible = true := by
  rw [timer_satellite_of_deployment sqrt s h]
  obtain ⟨h1, h2, h3, h4, h5, h6, h7, _, _⟩ := satelliteIntegrate_fields GRAVITATIONAL_CONSTANT
    sqrt ({ s.satellite with
      isVisible := true
      position := s.upperStage.position
      velocity := s.upperStage.velocity } : PhysicsObject K)
  exact ⟨h1, h2, h3, h4, h5, h6, h7⟩

theorem timer_deploymentReady_position_x :
    (timer Real.sqrt (deploymentReady : Sim ℝ)).satellite.position.x = 14 / 125 := by
  obtain ⟨h1, _, _, h4, _⟩ := timer_satellite_motion_of_deployment Real.sqrt
    (deploymentReady : Sim ℝ) rfl
  rw [h4, h1]
  simp only [deploymentReady]
  norm_num [TIMESTEP]

theorem boosterIntegrate_flags (G : K) (sqrt : K → K) (b : PhysicsObject K) :
    (boosterIntegrate G sqrt b).isVisible = b.isVisible ∧
    (boosterIntegrate G sqrt b).hasThrust = b.hasThrust ∧
    (boosterIntegrate G sqrt b).angle = b.angle := by
  unfold boosterIntegrate
  simp only []
  split_ifs <;> exact ⟨rfl, rfl, rfl⟩

theorem boosterPhysics_isVisible (G : K) (sqrt : K → K) (s : Sim K) :
    (boosterPhysics G sqrt s).mainBooster.isVisible =
      (s.mainBooster.isVisible && !decide (sqrt (distSq s.mainBooster) < EARTH_RADIUS)) := by
  unfold boosterPhysics
  have hb := (boosterIntegrate_flags G sqrt s.mainBooster).1
  by_cases hv : s.mainBooster.isVisible = true
  · rw [if_pos hv]
    simp only []
    split_ifs with h1 h2 h2 <;> simp [h1, hv, hb]
  · rw [if_neg hv]
    simp at hv
    simp [hv]

theorem physicsWith_mainBooster_isVisible (G : K) (sqrt : K → K) (s : Sim K) :
    (physicsWith G sqrt s).mainBooster.isVisible =
      if s.currentState = GameState.PRE_LAUNCH then s.mainBooster.isVisible
      else (s.mainBooster.isVisible &&
        !decide (sqrt (distSq s.mainBooster) < EARTH_RADIUS)) := by
  by_cases h : s.currentState = GameState.PRE_LAUNCH
  · rw [if_pos h]
    unfold physicsWith
    simp [h, GameState.toNat]
  · rw [if_neg h, physicsWith_of_launched G sqrt s h, (satellitePhysics_fields _ _ _).2.1,
      (lockUpperStage_fields _).2.1, (upperStagePhysics_fields _ _ _).2.1,
      boosterPhysics_isVisible, (cameraUpdate_fields _).2.1]

theorem boosterIntegrate_no_gravity (sqrt : K → K) (b : PhysicsObject K)
    (ht : b.hasThrust = true) :
    (boosterIntegrate 0 sqrt b).velocity.x = b.velocity.x ∧
    (boosterIntegrate 0 sqrt b).velocity.y = b.velocity.y + BOOSTER_THRUST * TIMESTEP ∧
    (boosterIntegrate 0 sqrt b).position.x = b.position.x + b.velocity.x * TIMESTEP ∧
    (boosterIntegrate 0 sqrt b).position.y =
      b.position.y + (b.velocity.y + BOOSTER_THRUST * TIMESTEP) * TIMESTEP := by
  unfold boosterIntegrate
  simp [ht]

theorem boosterStep_of_visible (G : K) (sqrt : K → K) (b : PhysicsObject K)
    (h : b.isVisible = true) :
    boosterStep G sqrt b = boosterIntegrate G sqrt b := by
  unfold boosterStep
  rw [if_pos h]

theorem boosterStep_iterate_no_gravity (sqrt : K → K) (b : PhysicsObject K) (N : ℕ)
    (hv : b.isVisible = true) (ht : b.hasThrust = true)
    (hx : b.velocity.x = 0) (hy : b.velocity.y = 0) :
    ((boosterStep 0 sqrt)^[N] b).isVisible = true ∧
    ((boosterStep 0 sqrt)^[N] b).hasThrust = true ∧
    ((boosterStep 0 sqrt)^[N] b).velocity.x = 0 ∧
    ((boosterStep 0 sqrt)^[N] b).velocity.y = BOOSTER_THRUST * TIMESTEP * N ∧
    ((boosterStep 0 sqrt)^[N] b).position.x = b.position.x ∧
    ((boosterStep 0 sqrt)^[N] b).position.y =
      b.position.y + TIMESTEP * ∑ k ∈ Finset.range N, BOOSTER_THRUST * TIMESTEP * ((k : K) + 1) := by
  induction N with
  | zero => simp [hv, ht, hx, hy]
  | succ n ih =>
    obtain ⟨i1, i2, i3, i4, i5, i6⟩ := ih
    rw [Function.iterate_succ_apply']
    rw [boosterStep_of_visible 0 sqrt _ i1]
    obtain ⟨f1, f2, f3⟩ := boosterIntegrate_flags (0 : K) sqrt ((boosterStep 0 sqrt)^[n] b)
    obtain ⟨g1, g2, g3, g4⟩ := boosterIntegrate_no_gravity sqrt ((boosterStep 0 sqrt)^[n] b) i2
    refine ⟨by rw [f1, i1], by rw [f2, i2], by rw [g1, i3], ?_, ?_, ?_⟩
    · rw [g2, i4]
      push_cast
      ring
    · rw [g3, i5, i3]
      simp
    · rw [g4, i6, i4, Finset.sum_range_succ]
      ring

theorem sum_thrust_velocities (N : ℕ) :
    ∑ k ∈ Finset.range N, (BOOSTER_THRUST : K) * TIMESTEP * ((k : K) + 1) =
      BOOSTER_THRUST * TIMESTEP * ((N : K) * ((N : K) + 1) / 2) := by
  induction N with
  | zero => simp
  | succ n ih =>
    rw [Finset.sum_range_succ, ih]
    push_cast
    ring

theorem upperStageIntegrate_flags (G : K) (sqrt : K → K) (u : PhysicsObject K) :
    (upperStageIntegrate G sqrt u).isVisible = u.isVisible ∧
    (upperStageIntegrate G sqrt u).hasThrust = u.hasThrust ∧
    (upperStageIntegrate G sqrt u).angle = u.angle := by
  unfold upperStageIntegrate
  simp only []
  split_ifs <;> exact ⟨rfl, rfl, rfl⟩

theorem boosterPhysics_hasThrust (G : K) (sqrt : K → K) (s : Sim K) :
    (boosterPhysics G sqrt s).mainBooster.hasThrust = s.mainBooster.hasThrust := by
  unfold boosterPhysics
  have hb := (boosterIntegrate_flags G sqrt s.mainBooster).2.1
  simp only []
  split_ifs <;> first | exact hb | rfl

theorem upperStagePhysics_hasThrust (G : K) (sqrt : K → K) (s : Sim K) :
    (upperStagePhysics G sqrt s).upperStage.hasThrust = s.upperStage.hasThrust := by
  unfold upperStagePhysics
  have hu := (upperStageIntegrate_flags G sqrt s.upperStage).2.1
  split_ifs <;> first | exact hu | rfl

theorem lockUpperStage_hasThrust (s : Sim K) :
    (lockUpperStage s).upperStage.hasThrust = s.upperStage.hasThrust := by
  unfold lockUpperStage
  split_ifs <;> rfl

theorem physicsWith_hasThrust (G : K) (sqrt : K → K) (s : Sim K) :
    (physicsWith G sqrt s).mainBooster.hasThrust = s.mainBooster.hasThrust ∧
    (physicsWith G sqrt s).upperStage.hasThrust = s.upperStage.hasThrust := by
  by_cases h : s.currentState = GameState.PRE_LAUNCH
  · unfold physicsWith
    simp [h, GameState.toNat]
  · rw [physicsWith_of_launched G sqrt s h]
    constructor
    · rw [(satellitePhysics_fields _ _ _).2.1, (lockUpperStage_fields _).2.1,
        (upperStagePhysics_fields _ _ _).2.1, boosterPhysics_hasThrust,
        (cameraUpdate_fields _).2.1]
    · rw [(satellitePhysics_fields _ _ _).2.2, lockUpperStage_hasThrust,
        upperStagePhysics_hasThrust, (boosterPhysics_fields _ _ _).2.1,
        (cameraUpdate_fields _).2.2.1]

theorem stateMachineWith_hasThrust (G : K) (sqrt : K → K) (s : Sim K) :
    (stateMachineWith G sqrt s).mainBooster.hasThrust =
      (match s.currentState with
      | .LIFTOFF => true
      | .STAGE_SEPARATION => false
      | _ => s.mainBooster.hasThrust) ∧
    (stateMachineWith G sqrt s).upperStage.hasThrust =
      (match s.currentState with
      | .STAGE_SEPARATION => true
      | .ORBITAL_INSERTION =>
        if s.upperStage.position.y ≥ ORBIT_ALTITUDE + WORLD_OFFSET_Y then false
        else s.upperStage.hasThrust
      | _ => s.upperStage.hasThrust) := by
  constructor <;>
    (cases h : s.currentState <;> simp only [stateMachineWith, h] <;> (try split_ifs) <;>
      rfl)

theorem timer_hasThrust (sqrt : K → K) (s : Sim K) :
    (timer sqrt s).mainBooster.hasThrust =
      (stateMachineWith GRAVITATIONAL_CONSTANT sqrt s).mainBooster.hasThrust ∧
    (timer sqrt s).upperStage.hasThrust =
      (stateMachineWith GRAVITATIONAL_CONSTANT sqrt s).upperStage.hasThrust := by
  unfold timer timerWith
  exact physicsWith_hasThrust _ _ _

theorem thrustInv_reset (s : Sim K) : ThrustInv (resetSimulation s) := by
  unfold ThrustInv
  exact ⟨rfl, rfl⟩

theorem thrustInv_timer (sqrt : K → K) (s : Sim K) (h : ThrustInv s) :
    ThrustInv (timer sqrt s) := by
  obtain ⟨hb, hu⟩ := timer_hasThrust sqrt s
  obtain ⟨sb, su⟩ := stateMachineWith_hasThrust GRAVITATIONAL_CONSTANT sqrt s
  have hp := timer_currentState sqrt s
  rw [stateMachineWith_currentState] at hp
  unfold ThrustInv at h ⊢
  rw [hb, hu, sb, su, hp]
  cases hc : s.currentState <;> simp only [hc] at h ⊢ <;> (try split_ifs) <;> simp_all

theorem thrustInv_keyboard_launch (key : Char) (hk : key = 'l' ∨ key = 'L') (s : Sim K)
    (h : ThrustInv s) : ThrustInv (keyboard key 0 0 s) := by
  have h1 : ¬ (key = 'r' ∨ key = 'R') := by
    rcases hk with rfl | rfl <;> decide
  unfold keyboard
  simp only [h1, if_false]
  split_ifs with hc
  · unfold ThrustInv at h ⊢
    simp only [hc.2] at h
    exact h.2
  · exact h

theorem thrustInv_apply (sqrt : K → K) (e : Event) (s : Sim K) (h : ThrustInv s) :
    ThrustInv (e.apply sqrt s) := by
  cases e
  · exact thrustInv_timer sqrt s h
  · exact thrustInv_keyboard_launch _ (Or.inl rfl) s h
  · exact thrustInv_keyboard_launch _ (Or.inr rfl) s h

theorem thrustInv_run (sqrt : K → K) (es : List Event) (s : Sim K) (h : ThrustInv s) :
    ThrustInv (run sqrt es s) := by
  induction es generalizing s with
  | nil => exact h
  | cons e es ih =>
    have h2 := ih (e.apply sqrt s) (thrustInv_apply sqrt e s h)
    simp only [run, List.foldl_cons] at h2 ⊢
    exact h2

theorem thrustInv_of_reachable (sqrt : K → K) (s : Sim K) (h : Reachable sqrt s) :
    ThrustInv s := by
  obtain ⟨s0, es, rfl⟩ := h
  exact thrustInv_run sqrt es _ (thrustInv_reset s0)

theorem reachable_launched (sqrt : K → K) :
    Reachable sqrt (keyboard 'l' 0 0 (resetSimulation (startup : Sim K))) :=
  ⟨startup, [Event.launchLower], rfl⟩

theorem lockUpperStage_locked (s : Sim K) (h : s.currentState = GameState.LIFTOFF) :
    (lockUpperStage s).upperStage.position.x = s.mainBooster.position.x ∧
    (lockUpperStage s).upperStage.position.y = s.mainBooster.position.y + 4 ∧
    (lockUpperStage s).upperStage.velocity = s.mainBooster.velocity := by
  unfold lockUpperStage
  rw [if_pos h]
  refine ⟨rfl, ?_, rfl⟩
  norm_num

theorem physicsWith_locked (G : K) (sqrt : K → K) (s : Sim K)
    (h : s.currentState = GameState.LIFTOFF) :
    (physicsWith G sqrt s).upperStage.position.x = (physicsWith G sqrt s).mainBooster.position.x ∧
    (physicsWith G sqrt s).upperStage.position.y =
      (physicsWith G sqrt s).mainBooster.position.y + 4 ∧
    (physicsWith G sqrt s).upperStage.velocity = (physicsWith G sqrt s).mainBooster.velocity := by
  have hne : s.currentState ≠ GameState.PRE_LAUNCH := by
    rw [h]
    decide
  have hc : (upperStagePhysics G sqrt (boosterPhysics G sqrt (cameraUpdate s))).currentState =
      GameState.LIFTOFF := by
    rw [(upperStagePhysics_fields _ _ _).1, (boosterPhysics_fields _ _ _).1,
      (cameraUpdate_fields _).1, h]
  obtain ⟨l1, l2, l3⟩ := lockUpperStage_locked _ hc
  rw [physicsWith_of_launched G sqrt s hne, (satellitePhysics_fields _ _ _).2.2,
    (satellitePhysics_fields _ _ _).2.1, (lockUpperStage_fields _).2.1]
  exact ⟨l1, l2, l3⟩

theorem launched_tick_phase (sqrt : K → K) :
    (timer sqrt (keyboard 'l' 0 0 (resetSimulation (startup : Sim K)))).currentState =
      GameState.LIFTOFF := by
  rw [timer_currentState, stateMachineWith_currentState]
  have hp : (keyboard 'l' 0 0 (resetSimulation (startup : Sim K))).currentState =
      GameState.LIFTOFF := rfl
  have hy : ¬ ((keyboard 'l' 0 0 (resetSimulation (startup : Sim K))).mainBooster.position.y >
      25.0 + WORLD_OFFSET_Y) := by
    show ¬ ((EARTH_RADIUS + WORLD_OFFSET_Y : K) > 25.0 + WORLD_OFFSET_Y)
    norm_num [EARTH_RADIUS, WORLD_OFFSET_Y]
  simp only [hp, if_neg hy]

theorem keyboard_launch_effect (key : Char) (hk : key = 'l' ∨ key = 'L') (x y : Int)
    (s : Sim K) :
    keyboard key x y s =
      if s.currentState = GameState.PRE_LAUNCH then
        { s with currentState := GameState.LIFTOFF }
      else s := by
  unfold keyboard
  have h1 : ¬ (key = 'r' ∨ key = 'R') := by
    rcases hk with rfl | rfl <;> decide
  simp only [h1, if_false, hk, true_and]

theorem liftoffAtThreshold_not_above :
    ¬ ((liftoffAtThreshold : Sim ℝ).mainBooster.position.y > 25 + WORLD_OFFSET_Y) := by
  show ¬ ((-75 : ℝ) > 25 + WORLD_OFFSET_Y)
  norm_num [WORLD_OFFSET_Y]

theorem boosterIntegrate_motion (G : K) (sqrt : K → K) (b : PhysicsObject K) :
    (boosterIntegrate G sqrt b).velocity.x =
      b.velocity.x + (-b.position.x / sqrt (distSq b)) * (G / distSq b) * TIMESTEP ∧
    (boosterIntegrate G sqrt b).velocity.y =
      (b.velocity.y +
        ((WORLD_OFFSET_Y - b.position.y) / sqrt (distSq b)) * (G / distSq b) * TIMESTEP) +
      (if b.hasThrust then BOOSTER_THRUST * TIMESTEP else 0) ∧
    (boosterIntegrate G sqrt b).velocity.z = b.velocity.z ∧
    (boosterIntegrate G sqrt b).position.x =
      b.position.x + (boosterIntegrate G sqrt b).velocity.x * TIMESTEP ∧
    (boosterIntegrate G sqrt b).position.y =
      b.position.y + (boosterIntegrate G sqrt b).velocity.y * TIMESTEP ∧
    (boosterIntegrate G sqrt b).position.z = b.position.z := by
  unfold boosterIntegrate
  simp only []
  split_ifs <;> simp

theorem boosterPhysics_motion (G : K) (sqrt : K → K) (s : Sim K)
    (hv : s.mainBooster.isVisible = true) :
    (boosterPhysics G sqrt s).mainBooster.position =
      (boosterIntegrate G sqrt s.mainBooster).position ∧
    (boosterPhysics G sqrt s).mainBooster.velocity =
      (boosterIntegrate G sqrt s.mainBooster).velocity := by
  unfold boosterPhysics
  rw [if_pos hv]
  simp only []
  split_ifs <;> exact ⟨rfl, rfl⟩

theorem physicsWith_mainBooster_motion (G : K) (sqrt : K → K) (s : Sim K)
    (h : s.currentState ≠ GameState.PRE_LAUNCH) (hv : s.mainBooster.isVisible = true) :
    (physicsWith G sqrt s).mainBooster.position =
      (boosterIntegrate G sqrt s.mainBooster).position ∧
    (physicsWith G sqrt s).mainBooster.velocity =
      (boosterIntegrate G sqrt s.mainBooster).velocity := by
  have hc : (cameraUpdate s).mainBooster = s.mainBooster := (cameraUpdate_fields s).2.1
  have hv1 : (cameraUpdate s).mainBooster.isVisible = true := by rw [hc, hv]
  obtain ⟨m1, m2⟩ := boosterPhysics_motion G sqrt (cameraUpdate s) hv1
  rw [physicsWith_of_launched G sqrt s h, (satellitePhysics_fields _ _ _).2.1,
    (lockUpperStage_fields _).2.1, (upperStagePhysics_fields _ _ _).2.1, m1, m2, hc]
  exact ⟨rfl, rfl⟩

theorem stateMachineWith_of_separation (G : K) (sqrt : K → K) (s : Sim K)
    (h : s.currentState = GameState.STAGE_SEPARATION) :
    stateMachineWith G sqrt s =
      { s with
        missionStatusText := "Main Booster Separation. Igniting Upper Stage."
        mainBooster := { s.mainBooster with
          hasThrust := false
          velocity := ⟨-1.0, s.mainBooster.velocity.y, s.mainBooster.velocity.z⟩ }
        upperStage := { s.upperStage with hasThrust := true }
        currentState := GameState.ORBITAL_INSERTION } := by
  simp only [stateMachineWith, h]

theorem timer_booster_x_of_separation (sqrt : K → K) (s : Sim K)
    (h : s.currentState = GameState.STAGE_SEPARATION)
    (hv : s.mainBooster.isVisible = true) :
    (timer sqrt s).mainBooster.velocity.x =
      -1 + (-s.mainBooster.position.x / sqrt (distSq s.mainBooster)) *
        (GRAVITATIONAL_CONSTANT / distSq s.mainBooster) * TIMESTEP ∧
    (timer sqrt s).mainBooster.position.x =
      s.mainBooster.position.x + (timer sqrt s).mainBooster.velocity.x * TIMESTEP := by
  unfold timer timerWith
  rw [stateMachineWith_of_separation _ sqrt s h]
  obtain ⟨m1, m2⟩ := physicsWith_mainBooster_motion GRAVITATIONAL_CONSTANT sqrt
    ({ s with
        missionStatusText := "Main Booster Separation. Igniting Upper Stage."
        mainBooster := { s.mainBooster with
          hasThrust := false
          velocity := ⟨-1.0, s.mainBooster.velocity.y, s.mainBooster.velocity.z⟩ }
        upperStage := { s.upperStage with hasThrust := true }
        currentState := GameState.ORBITAL_INSERTION } : Sim K) (by simp) hv
  obtain ⟨b1, _, _, b4, _, _⟩ := boosterIntegrate_motion GRAVITATIONAL_CONSTANT sqrt
    ({ s.mainBooster with
          hasThrust := false
          velocity := ⟨-1.0, s.mainBooster.velocity.y, s.mainBooster.velocity.z⟩ } :
      PhysicsObject K)
  have hd : distSq ({ s.mainBooster with
          hasThrust := false
          velocity := ⟨-1.0, s.mainBooster.velocity.y, s.mainBooster.velocity.z⟩ } :
      PhysicsObject K) = distSq s.mainBooster := rfl
  rw [hd] at b1
  rw [m1, m2]
  refine ⟨?_, b4⟩
  rw [b1]
  norm_num

theorem distSq_eq_floor (o : PhysicsObject K) :
    distSq o = if planarDistSq o < 1 then 1 else planarDistSq o := by
  unfold distSq planarDistSq
  norm_num

theorem sqrt_one_of_isSqrt (sqrt : K → K) (hs : IsSqrt sqrt) : sqrt 1 = 1 := by
  have e := sqrt_mul_self_of_isSqrt sqrt hs 1 (by norm_num)
  simpa using e

theorem sqrt_mul_sq_of_isSqrt (sqrt : K → K) (hs : IsSqrt sqrt) (a m : K)
    (ha : 0 ≤ a) (hm : 0 ≤ m) :
    sqrt (a * (m * m)) = sqrt a * m := by
  obtain ⟨h0, h1⟩ := hs a ha
  have e := sqrt_mul_self_of_isSqrt sqrt hs (sqrt a * m) (mul_nonneg h0 hm)
  have e2 : sqrt a * m * (sqrt a * m) = a * (m * m) := by
    calc sqrt a * m * (sqrt a * m) = (sqrt a * sqrt a) * (m * m) := by ring
      _ = a * (m * m) := by rw [h1]
  rw [e2] at e
  exact e

theorem planarDistSq_nonneg (o : PhysicsObject K) : 0 ≤ planarDistSq o := by
  unfold planarDistSq
  exact add_nonneg (mul_self_nonneg _) (mul_self_nonneg _)

theorem gravityIncrement_far (G : K) (hG : 0 ≤ G) (sqrt : K → K) (hs : IsSqrt sqrt)
    (o : PhysicsObject K) (hd : 1 ≤ planarDistSq o) :
    distSq o = planarDistSq o ∧
    sqrt ((gravityIncrement G sqrt o).1 * (gravityIncrement G sqrt o).1 +
        (gravityIncrement G sqrt o).2 * (gravityIncrement G sqrt o).2) =
      G / planarDistSq o * TIMESTEP ∧
    (gravityIncrement G sqrt o).1 =
      (G / planarDistSq o * TIMESTEP) * (-o.position.x / sqrt (planarDistSq o)) ∧
    (gravityIncrement G sqrt o).2 =
      (G / planarDistSq o * TIMESTEP) *
        ((WORLD_OFFSET_Y - o.position.y) / sqrt (planarDistSq o)) ∧
    sqrt ((-o.position.x / sqrt (planarDistSq o)) * (-o.position.x / sqrt (planarDistSq o)) +
        ((WORLD_OFFSET_Y - o.position.y) / sqrt (planarDistSq o)) *
          ((WORLD_OFFSET_Y - o.position.y) / sqrt (planarDistSq o))) = 1 := by
  have hD : distSq o = planarDistSq o := by
    rw [distSq_eq_floor, if_neg (not_lt.mpr hd)]
  have hpos : 0 < planarDistSq o := lt_of_lt_of_le one_pos hd
  have hr := sqrt_pos_of_isSqrt sqrt hs _ hpos
  have hrr := (hs _ (le_of_lt hpos)).2
  have hne : sqrt (planarDistSq o) ≠ 0 := ne_of_gt hr
  have hunit : (-o.position.x / sqrt (planarDistSq o)) *
        (-o.position.x / sqrt (planarDistSq o)) +
      ((WORLD_OFFSET_Y - o.position.y) / sqrt (planarDistSq o)) *
        ((WORLD_OFFSET_Y - o.position.y) / sqrt (planarDistSq o)) = 1 := by
    have e : (-o.position.x / sqrt (planarDistSq o)) *
          (-o.position.x / sqrt (planarDistSq o)) +
        ((WORLD_OFFSET_Y - o.position.y) / sqrt (planarDistSq o)) *
          ((WORLD_OFFSET_Y - o.position.y) / sqrt (planarDistSq o)) =
        planarDistSq o / (sqrt (planarDistSq o) * sqrt (planarDistSq o)) := by
      unfold planarDistSq
      field_simp
    rw [e, hrr, div_self (ne_of_gt hpos)]
  have hm : (0 : K) ≤ G / planarDistSq o * TIMESTEP :=
    mul_nonneg (div_nonneg hG (le_of_lt hpos)) (by norm_num [TIMESTEP])
  have g1 : (gravityIncrement G sqrt o).1 =
      (G / planarDistSq o * TIMESTEP) * (-o.position.x / sqrt (planarDistSq o)) := by
    unfold gravityIncrement
    simp only [hD]
    ring
  have g2 : (gravityIncrement G sqrt o).2 =
      (G / planarDistSq o * TIMESTEP) *
        ((WORLD_OFFSET_Y - o.position.y) / sqrt (planarDistSq o)) := by
    unfold gravityIncrement
    simp only [hD]
    ring
  refine ⟨hD, ?_, g1, g2, ?_⟩
  · rw [g1, g2]
    have e : (G / planarDistSq o * TIMESTEP) * (-o.position.x / sqrt (planarDistSq o)) *
          ((G / planarDistSq o * TIMESTEP) * (-o.position.x / sqrt (planarDistSq o))) +
        (G / planarDistSq o * TIMESTEP) *
            ((WORLD_OFFSET_Y - o.position.y) / sqrt (planarDistSq o)) *
          ((G / planarDistSq o * TIMESTEP) *
            ((WORLD_OFFSET_Y - o.position.y) / sqrt (planarDistSq o))) =
        (G / planarDistSq o * TIMESTEP) * (G / planarDistSq o * TIMESTEP) *
          ((-o.position.x / sqrt (planarDistSq o)) *
              (-o.position.x / sqrt (planarDistSq o)) +
            ((WORLD_OFFSET_Y - o.position.y) / sqrt (planarDistSq o)) *
              ((WORLD_OFFSET_Y - o.position.y) / sqrt (planarDistSq o))) := by
      ring
    rw [e, hunit, mul_one]
    exact sqrt_mul_self_of_isSqrt sqrt hs _ hm
  · rw [hunit]
    exact sqrt_one_of_isSqrt sqrt hs

theorem gravityIncrement_near (G : K) (hG : 0 < G) (sqrt : K → K) (hs : IsSqrt sqrt)
    (o : PhysicsObject K) (hd : planarDistSq o < 1) :
    distSq o = 1 ∧
    (gravityIncrement G sqrt o).1 = -o.position.x * (G * TIMESTEP) ∧
    (gravityIncrement G sqrt o).2 = (WORLD_OFFSET_Y - o.position.y) * (G * TIMESTEP) ∧
    sqrt ((gravityIncrement G sqrt o).1 * (gravityIncrement G sqrt o).1 +
        (gravityIncrement G sqrt o).2 * (gravityIncrement G sqrt o).2) =
      sqrt (planarDistSq o) * (G * TIMESTEP) ∧
    sqrt ((gravityIncrement G sqrt o).1 * (gravityIncrement G sqrt o).1 +
        (gravityIncrement G sqrt o).2 * (gravityIncrement G sqrt o).2) <
      G / distSq o * TIMESTEP := by
  have hD : distSq o = 1 := by
    rw [distSq_eq_floor, if_pos hd]
  have h1 := sqrt_one_of_isSqrt sqrt hs
  have hm : (0 : K) < G * TIMESTEP := mul_pos hG (by norm_num [TIMESTEP])
  have g1 : (gravityIncrement G sqrt o).1 = -o.position.x * (G * TIMESTEP) := by
    unfold gravityIncrement
    simp only [hD, h1]
    ring
  have g2 : (gravityIncrement G sqrt o).2 =
      (WORLD_OFFSET_Y - o.position.y) * (G * TIMESTEP) := by
    unfold gravityIncrement
    simp only [hD, h1]
    ring
  have hmag : sqrt ((gravityIncrement G sqrt o).1 * (gravityIncrement G sqrt o).1 +
        (gravityIncrement G sqrt o).2 * (gravityIncrement G sqrt o).2) =
      sqrt (planarDistSq o) * (G * TIMESTEP) := by
    rw [g1, g2]
    have e : -o.position.x * (G * TIMESTEP) * (-o.position.x * (G * TIMESTEP)) +
        (WORLD_OFFSET_Y - o.position.y) * (G * TIMESTEP) *
          ((WORLD_OFFSET_Y - o.position.y) * (G * TIMESTEP)) =
        planarDistSq o * ((G * TIMESTEP) * (G * TIMESTEP)) := by
      unfold planarDistSq
      ring
    rw [e]
    exact sqrt_mul_sq_of_isSqrt sqrt hs _ _ (planarDistSq_nonneg o) (le_of_lt hm)
  refine ⟨hD, g1, g2, hmag, ?_⟩
  rw [hmag, hD]
  obtain ⟨r0, rr⟩ := hs _ (planarDistSq_nonneg o)
  have hlt : sqrt (planarDistSq o) < 1 := by
    by_contra hc
    push_neg at hc
    have : 1 * 1 ≤ sqrt (planarDistSq o) * sqrt (planarDistSq o) :=
      mul_le_mul hc hc (by norm_num) r0
    rw [rr] at this
    linarith
  calc sqrt (planarDistSq o) * (G * TIMESTEP) < 1 * (G * TIMESTEP) :=
        mul_lt_mul_of_pos_right hlt hm
    _ = G / 1 * TIMESTEP := by ring

theorem physicsWith_mainBooster_gravity (G : K) (sqrt : K → K) (t : Sim K)
    (h : t.currentState ≠ GameState.PRE_LAUNCH) (hv : t.mainBooster.isVisible = true) :
    (physicsWith G sqrt t).mainBooster.velocity.x =
      t.mainBooster.velocity.x + (gravityIncrement G sqrt t.mainBooster).1 ∧
    (physicsWith G sqrt t).mainBooster.velocity.y =
      (t.mainBooster.velocity.y + (gravityIncrement G sqrt t.mainBooster).2) +
        (if t.mainBooster.hasThrust then BOOSTER_THRUST * TIMESTEP else 0) := by
  rw [(physicsWith_mainBooster_motion G sqrt t h hv).2]
  exact ⟨(boosterIntegrate_motion G sqrt t.mainBooster).1,
    (boosterIntegrate_motion G sqrt t.mainBooster).2.1⟩

theorem physicsWith_upperStage_gravity (G : K) (sqrt : K → K) (t : Sim K)
    (h : t.currentState.toNat ≥ GameState.STAGE_SEPARATION.toNat)
    (hv : t.upperStage.isVisible = true) :
    (physicsWith G sqrt t).upperStage.velocity.x =
      t.upperStage.velocity.x + (gravityIncrement G sqrt t.upperStage).1 ∧
    (physicsWith G sqrt t).upperStage.velocity.y =
      (t.upperStage.velocity.y + (gravityIncrement G sqrt t.upperStage).2) +
        (if t.upperStage.hasThrust then UPPER_STAGE_THRUST * TIMESTEP else 0) := by
  rw [physicsWith_upperStage_of_separated G sqrt t h, if_pos hv]
  exact ⟨(upperStageIntegrate_velocity G sqrt t.upperStage).1,
    (upperStageIntegrate_velocity G sqrt t.upperStage).2.1⟩

theorem physicsWith_satellite_gravity (G : K) (sqrt : K → K) (t : Sim K)
    (h : t.currentState ≠ GameState.PRE_LAUNCH) (hv : t.satellite.isVisible = true) :
    (physicsWith G sqrt t).satellite.velocity.x =
      t.satellite.velocity.x + (gravityIncrement G sqrt t.satellite).1 ∧
    (physicsWith G sqrt t).satellite.velocity.y =
      t.satellite.velocity.y + (gravityIncrement G sqrt t.satellite).2 := by
  rw [physicsWith_satellite G sqrt t h, if_pos hv]
  exact ⟨(satelliteIntegrate_fields G sqrt t.satellite).1,
    (satelliteIntegrate_fields G sqrt t.satellite).2.1⟩

theorem satelliteNearCentre_planarDistSq :
    planarDistSq (satelliteNearCentre : Sim ℝ).satellite = 1 / 4 := by
  show planarDistSq (⟨⟨0, -100.5, 0⟩, ⟨0, 0, 0⟩, 0, true, false⟩ : PhysicsObject ℝ) = 1 / 4
  unfold planarDistSq
  norm_num [WORLD_OFFSET_Y]

theorem satelliteNearCentre_gravity :
    gravityIncrement GRAVITATIONAL_CONSTANT Real.sqrt (satelliteNearCentre : Sim ℝ).satellite =
      (0, 20) := by
  have hd : planarDistSq (satelliteNearCentre : Sim ℝ).satellite < 1 := by
    rw [satelliteNearCentre_planarDistSq]
    norm_num
  obtain ⟨_, g1, g2, _, _⟩ := gravityIncrement_near (GRAVITATIONAL_CONSTANT : ℝ)
    (by norm_num [GRAVITATIONAL_CONSTANT]) Real.sqrt real_isSqrt _ hd
  refine Prod.ext ?_ ?_
  · rw [g1]
    show -(0 : ℝ) * (GRAVITATIONAL_CONSTANT * TIMESTEP) = 0
    norm_num
  · rw [g2]
    show (WORLD_OFFSET_Y - (-100.5 : ℝ)) * (GRAVITATIONAL_CONSTANT * TIMESTEP) = 20
    norm_num [WORLD_OFFSET_Y, GRAVITATIONAL_CONSTANT, TIMESTEP]

theorem timer_satelliteNearCentre_velocity :
    (timer Real.sqrt (satelliteNearCentre : Sim ℝ)).satellite.velocity.x = 0 ∧
    (timer Real.sqrt (satelliteNearCentre : Sim ℝ)).satellite.velocity.y = 20 := by
  have ht : stateMachineWith GRAVITATIONAL_CONSTANT Real.sqrt (satelliteNearCentre : Sim ℝ) =
      { (satelliteNearCentre : Sim ℝ) with
        missionStatusText := "Mission Successful. Satellite is in stable orbit." } := rfl
  obtain ⟨v1, v2⟩ := physicsWith_satellite_gravity GRAVITATIONAL_CONSTANT Real.sqrt
    ({ (satelliteNearCentre : Sim ℝ) with
        missionStatusText := "Mission Successful. Satellite is in stable orbit." } : Sim ℝ)
    (by show GameState.MISSION_SUCCESS ≠ GameState.PRE_LAUNCH; decide) rfl
  have hg := satelliteNearCentre_gravity
  unfold timer timerWith
  rw [ht, v1, v2]
  have e : ({ (satelliteNearCentre : Sim ℝ) with
        missionStatusText := "Mission Successful. Satellite is in stable orbit." } :
      Sim ℝ).satellite = (satelliteNearCentre : Sim ℝ).satellite := rfl
  rw [e, hg]
  constructor
  · show (0 : ℝ) + 0 = 0
    norm_num
  · show (0 : ℝ) + 20 = 20
    norm_num

theorem real_sqrt_400 : Real.sqrt 400 = 20 := by
  rw [show (400 : ℝ) = 20 * 20 by norm_num]
  exact Real.sqrt_mul_self (by norm_num)

theorem separationPending_planarDistSq :
    (1 : ℝ) ≤ planarDistSq (separationPending : Sim ℝ).mainBooster := by
  show (1 : ℝ) ≤ planarDistSq (⟨⟨3, -74, 0⟩, ⟨2, 6, 0⟩, 1, true, true⟩ : PhysicsObject ℝ)
  unfold planarDistSq
  norm_num [WORLD_OFFSET_Y]

theorem stateMachineWith_of_liftoff_low (G : K) (sqrt : K → K) (s : Sim K)
    (h : s.currentState = GameState.LIFTOFF)
    (hy : ¬ (s.mainBooster.position.y > 25.0 + WORLD_OFFSET_Y)) :
    stateMachineWith G sqrt s =
      { s with
        missionStatusText := "Liftoff! Overcoming gravity's pull."
        mainBooster := { s.mainBooster with hasThrust := true } } := by
  simp only [stateMachineWith, h, if_neg hy]

theorem distSq_above_centre (sqrt : K → K) (hs : IsSqrt sqrt) (o : PhysicsObject K)
    (hx : o.position.x = 0) (hlo : -85 ≤ o.position.y) :
    distSq o = (o.position.y + 100) * (o.position.y + 100) ∧
    sqrt (distSq o) = o.position.y + 100 := by
  have hq : (15 : K) ≤ o.position.y + 100 := by linarith
  have hp : planarDistSq o = (o.position.y + 100) * (o.position.y + 100) := by
    unfold planarDistSq
    simp only [hx]
    norm_num [WORLD_OFFSET_Y]
    ring
  have hge : ¬ (planarDistSq o < 1) := by
    rw [hp]
    nlinarith
  have hD : distSq o = (o.position.y + 100) * (o.position.y + 100) := by
    rw [distSq_eq_floor, if_neg hge, hp]
  refine ⟨hD, ?_⟩
  rw [hD]
  exact sqrt_mul_self_of_isSqrt sqrt hs _ (by linarith)

theorem timer_liftoff_climb (sqrt : K → K) (hs : IsSqrt sqrt) (s : Sim K)
    (h : s.currentState = GameState.LIFTOFF) (hv : s.mainBooster.isVisible = true)
    (hx : s.mainBooster.position.x = 0) (hvx : s.mainBooster.velocity.x = 0)
    (hlo : -85 ≤ s.mainBooster.position.y) (hhi : s.mainBooster.position.y ≤ -75) :
    (timer sqrt s).currentState = GameState.LIFTOFF ∧
    (timer sqrt s).mainBooster.isVisible = true ∧
    (timer sqrt s).mainBooster.position.x = 0 ∧
    (timer sqrt s).mainBooster.velocity.x = 0 ∧
    s.mainBooster.velocity.y + 19 / 100 ≤ (timer sqrt s).mainBooster.velocity.y ∧
    (timer sqrt s).mainBooster.position.y =
      s.mainBooster.position.y + (timer sqrt s).mainBooster.velocity.y * TIMESTEP := by
  have hy : ¬ (s.mainBooster.position.y > 25.0 + WORLD_OFFSET_Y) := by
    norm_num [WORLD_OFFSET_Y]
    exact hhi
  obtain ⟨hD, hS⟩ := distSq_above_centre sqrt hs s.mainBooster hx hlo
  have hq : (15 : K) ≤ s.mainBooster.position.y + 100 := by linarith
  have hphase : (timer sqrt s).currentState = GameState.LIFTOFF := by
    rw [timer_currentState, stateMachineWith_currentState]
    simp only [h, if_neg hy]
  have ht : timer sqrt s = physicsWith GRAVITATIONAL_CONSTANT sqrt
      { s with
        missionStatusText := "Liftoff! Overcoming gravity's pull."
        mainBooster := { s.mainBooster with hasThrust := true } } := by
    unfold timer timerWith
    rw [stateMachineWith_of_liftoff_low _ sqrt s h hy]
  have hne : ({ s with
        missionStatusText := "Liftoff! Overcoming gravity's pull."
        mainBooster := { s.mainBooster with hasThrust := true } } : Sim K).currentState ≠
      GameState.PRE_LAUNCH := by
    show s.currentState ≠ GameState.PRE_LAUNCH
    rw [h]
    decide
  obtain ⟨m1, m2⟩ := physicsWith_mainBooster_motion GRAVITATIONAL_CONSTANT sqrt _ hne
    (show ({ s with
        missionStatusText := "Liftoff! Overcoming gravity's pull."
        mainBooster := { s.mainBooster with hasThrust := true } } :
      Sim K).mainBooster.isVisible = true from hv)
  obtain ⟨b1, b2, _, b4, b5, _⟩ := boosterIntegrate_motion GRAVITATIONAL_CONSTANT sqrt
    ({ s.mainBooster with hasThrust := true } : PhysicsObject K)
  have hd : distSq ({ s.mainBooster with hasThrust := true } : PhysicsObject K) =
      distSq s.mainBooster := rfl
  rw [hd] at b1 b2
  simp only [hx, hvx, neg_zero, zero_div, zero_mul, add_zero, if_true] at b1 b2
  have hvis : (timer sqrt s).mainBooster.isVisible = true := by
    rw [ht, physicsWith_mainBooster_isVisible, if_neg hne]
    have hnl : ¬ (sqrt (distSq s.mainBooster) < EARTH_RADIUS) := by
      rw [hS]
      norm_num [EARTH_RADIUS]
      exact hq
    show (s.mainBooster.isVisible && !decide (sqrt (distSq s.mainBooster) < EARTH_RADIUS)) =
      true
    simp [hv, hnl]
  have hvel : s.mainBooster.velocity.y + 19 / 100 ≤
      (timer sqrt s).mainBooster.velocity.y := by
    rw [ht, m2, b2, hS, hD]
    have hqpos : (0 : K) < s.mainBooster.position.y + 100 := by linarith
    have hqq : (225 : K) ≤ (s.mainBooster.position.y + 100) *
        (s.mainBooster.position.y + 100) := by nlinarith
    have e1 : (WORLD_OFFSET_Y - s.mainBooster.position.y) /
        (s.mainBooster.position.y + 100) = -1 := by
      rw [div_eq_iff (ne_of_gt hqpos)]
      norm_num [WORLD_OFFSET_Y]
      ring
    have e2 : GRAVITATIONAL_CONSTANT /
          ((s.mainBooster.position.y + 100) * (s.mainBooster.position.y + 100)) ≤
        (2500 : K) / 225 := by
      norm_num [GRAVITATIONAL_CONSTANT]
      rw [div_le_div_iff₀ (by linarith) (by norm_num)]
      linarith
    rw [e1]
    norm_num [TIMESTEP, BOOSTER_THRUST] at e2 ⊢
    linarith
  refine ⟨hphase, hvis, ?_, ?_, hvel, ?_⟩
  · rw [ht, m1, b4, b1]
    show s.mainBooster.position.x + 0 * TIMESTEP = 0
    rw [hx]
    ring
  · rw [ht, m2, b1]
  · rw [ht, m1, m2, b5]

theorem run_cons (sqrt : K → K) (e : Event) (es : List Event) (s : Sim K) :
    run sqrt (e :: es) s = run sqrt es (e.apply sqrt s) := by
  simp only [run, List.foldl_cons]

theorem run_append (sqrt : K → K) (es fs : List Event) (s : Sim K) :
    run sqrt (es ++ fs) s = run sqrt fs (run sqrt es s) := by
  simp only [run, List.foldl_append]

theorem run_tick_replicate (sqrt : K → K) (n : ℕ) (s : Sim K) :
    run sqrt (List.replicate n Event.tick) s = (timer sqrt)^[n] s := by
  induction n generalizing s with
  | zero => rfl
  | succ n ih =>
    rw [List.replicate_succ, run_cons, ih, Function.iterate_succ_apply]
    rfl

theorem run_phase_le (sqrt : K → K) (es : List Event) (s : Sim K) :
    s.currentState.toNat ≤ (run sqrt es s).currentState.toNat := by
  induction es generalizing s with
  | nil => exact le_refl _
  | cons e es ih =>
    rw [run_cons]
    exact le_trans (apply_phase_le sqrt e s) (ih _)

theorem reachable_run (sqrt : K → K) (es : List Event) (s : Sim K)
    (h : Reachable sqrt s) : Reachable sqrt (run sqrt es s) := by
  obtain ⟨s0, fs, rfl⟩ := h
  exact ⟨s0, fs ++ es, (run_append sqrt fs es _).symm⟩

theorem timer_phase_ge_insertion (sqrt : K → K) (s : Sim K)
    (h : s.currentState.toNat ≥ GameState.STAGE_SEPARATION.toNat) :
    (timer sqrt s).currentState.toNat ≥ GameState.ORBITAL_INSERTION.toNat := by
  rw [timer_currentState, stateMachineWith_currentState]
  cases hc : s.currentState <;> simp only [hc] at h ⊢ <;> (try split_ifs) <;>
    first
      | exact absurd h (by decide)
      | decide

theorem liftoffClimb_launched : LiftoffClimb 0 (launched : Sim K) := by
  refine ⟨rfl, rfl, ?_, ?_, ?_, ?_⟩
  · show (0.0 : K) = 0
    norm_num
  · show (0.0 : K) = 0
    norm_num
  · show (19 / 100 : K) * ((0 : ℕ) : K) ≤ 0.0
    norm_num
  · show -85 + (19 / 12500 : K) * ((0 : ℕ) : K) * (((0 : ℕ) : K) + 1) ≤
      EARTH_RADIUS + WORLD_OFFSET_Y
    norm_num [EARTH_RADIUS, WORLD_OFFSET_Y]

theorem liftoffClimb_step (sqrt : K → K) (hs : IsSqrt sqrt) (n : ℕ) (s : Sim K)
    (hc : LiftoffClimb n s) :
    (timer sqrt s).currentState.toNat ≥ GameState.STAGE_SEPARATION.toNat ∨
      LiftoffClimb (n + 1) (timer sqrt s) := by
  obtain ⟨h, hv, hx, hvx, hvy, hy⟩ := hc
  have hn : (0 : K) ≤ (n : K) := Nat.cast_nonneg n
  have hlo : -85 ≤ s.mainBooster.position.y := by nlinarith
  by_cases hhi : s.mainBooster.position.y ≤ -75
  · right
    obtain ⟨c1, c2, c3, c4, c5, c6⟩ := timer_liftoff_climb sqrt hs s h hv hx hvx hlo hhi
    have hv1 : (19 / 100 : K) * ((n + 1 : ℕ) : K) ≤ (timer sqrt s).mainBooster.velocity.y := by
      push_cast
      linarith
    refine ⟨c1, c2, c3, c4, hv1, ?_⟩
    rw [c6]
    push_cast at hv1 ⊢
    norm_num [TIMESTEP]
    nlinarith
  · left
    have hy1 : s.mainBooster.position.y > 25.0 + WORLD_OFFSET_Y := by
      norm_num [WORLD_OFFSET_Y]
      exact lt_of_not_le hhi
    rw [timer_phase_of_liftoff_high sqrt s h hy1]

theorem climb_or_separated (sqrt : K → K) (hs : IsSqrt sqrt) (n : ℕ) :
    ((timer sqrt)^[n] (launched : Sim K)).currentState.toNat ≥
        GameState.STAGE_SEPARATION.toNat ∨
      LiftoffClimb n ((timer sqrt)^[n] (launched : Sim K)) := by
  induction n with
  | zero => exact Or.inr liftoffClimb_launched
  | succ n ih =>
    rw [Function.iterate_succ_apply']
    rcases ih with h | h
    · left
      exact le_trans h (timer_phase_le sqrt _)
    · exact liftoffClimb_step sqrt hs n _ h

theorem timer_phase_of_climb_end (sqrt : K → K) (s : Sim K) (h : LiftoffClimb 81 s) :
    (timer sqrt s).currentState = GameState.STAGE_SEPARATION := by
  obtain ⟨h1, _, _, _, _, hy⟩ := h
  have hy1 : s.mainBooster.position.y > 25.0 + WORLD_OFFSET_Y := by
    norm_num [WORLD_OFFSET_Y] at hy ⊢
    linarith
  exact timer_phase_of_liftoff_high sqrt s h1 hy1

theorem separated_after_climb (sqrt : K → K) (hs : IsSqrt sqrt) :
    ((timer sqrt)^[82] (launched : Sim K)).currentState.toNat ≥
      GameState.STAGE_SEPARATION.toNat := by
  rw [Function.iterate_succ_apply']
  rcases climb_or_separated sqrt hs 81 with h | h
  · exact le_trans h (timer_phase_le sqrt _)
  · rw [timer_phase_of_climb_end sqrt _ h]

theorem insertion_after_climb (sqrt : K → K) (hs : IsSqrt sqrt) :
    (run sqrt (Event.launchLower :: List.replicate 83 Event.tick)
      (resetSimulation (startup : Sim K))).currentState.toNat ≥
      GameState.ORBITAL_INSERTION.toNat := by
  rw [run_cons, run_tick_replicate, Function.iterate_succ_apply']
  exact timer_phase_ge_insertion sqrt _ (separated_after_climb sqrt hs)

end Lemmas

/-! ## Consequences of the thrust invariant -/

section FlagLemmas

variable {K : Type}

theorem thrustInv_not_both (s : Sim K) (h : ThrustInv s) :
    ¬ (s.mainBooster.hasThrust = true ∧ s.upperStage.hasThrust = true) := by
  unfold ThrustInv at h
  cases hc : s.currentState <;> simp only [hc] at h <;> simp_all

theorem thrustInv_booster_off (s : Sim K) (h : ThrustInv s)
    (hge : s.currentState.toNat ≥ GameState.ORBITAL_INSERTION.toNat) :
    s.mainBooster.hasThrust = false := by
  unfold ThrustInv at h
  cases hc : s.currentState <;> simp only [hc] at h hge <;>
    first
      | exact h.1
      | exact absurd hge (by decide)

end FlagLemmas

/-! ## The properties -/

section Properties

variable {K : Type} [LinearOrderedField K]

/-- C1: over every finite sequence of ticks and launch requests, applied to
any state, the mission phase never decreases in the order of the enumeration
`PRE_LAUNCH < LIFTOFF < STAGE_SEPARATION < ORBITAL_INSERTION <
SATELLITE_DEPLOYMENT < MISSION_SUCCESS`. -/
theorem phase_never_decreases (sqrt : K → K) (es : List Event) (s : Sim K) :
    s.currentState.toNat ≤ (run sqrt es s).currentState.toNat := by
  induction es generalizing s with
  | nil => exact le_refl _
  | cons e es ih =>
    have h1 := apply_phase_le sqrt e s
    have h2 := ih (e.apply sqrt s)
    simp only [run, List.foldl_cons] at h2 ⊢
    exact le_trans h1 h2

/-- C2: a tick in phase `PRE_LAUNCH` leaves the position and the velocity of
the booster, of the upper stage and of the satellite unchanged, and the phase
stays `PRE_LAUNCH`. -/
theorem prelaunch_tick_moves_nothing (sqrt : K → K) (s : Sim K)
    (h : s.currentState = GameState.PRE_LAUNCH) :
    (timer sqrt s).currentState = GameState.PRE_LAUNCH ∧
    (timer sqrt s).mainBooster.position = s.mainBooster.position ∧
    (timer sqrt s).mainBooster.velocity = s.mainBooster.velocity ∧
    (timer sqrt s).upperStage.position = s.upperStage.position ∧
    (timer sqrt s).upperStage.velocity = s.upperStage.velocity ∧
    (timer sqrt s).satellite.position = s.satellite.position ∧
    (timer sqrt s).satellite.velocity = s.satellite.velocity := by
  rw [timer_of_prelaunch sqrt s h]
  exact ⟨h, rfl, rfl, rfl, rfl, rfl, rfl⟩

/-- Witness of C2: a tick applied to the reset state, over the reals. -/
theorem prelaunch_tick_moves_nothing_witness :
    (resetSimulation (startup : Sim ℝ)).currentState = GameState.PRE_LAUNCH ∧
    (timer Real.sqrt (resetSimulation startup)).mainBooster.position =
      (resetSimulation (startup : Sim ℝ)).mainBooster.position :=
  ⟨rfl, (prelaunch_tick_moves_nothing Real.sqrt (resetSimulation startup) rfl).2.1⟩

/-- C3 as stated fails: the tick that starts in `LIFTOFF` with the booster at
height `-70`, above the threshold `25 + WORLD_OFFSET_Y = -75`, ends in phase
`STAGE_SEPARATION`, not in `ORBITAL_INSERTION`. -/
theorem separation_observed_after_tick :
    (liftoffHigh : Sim ℝ).currentState = GameState.LIFTOFF ∧
    (liftoffHigh : Sim ℝ).mainBooster.position.y > 25 + WORLD_OFFSET_Y ∧
    (timer Real.sqrt liftoffHigh).currentState = GameState.STAGE_SEPARATION ∧
    (timer Real.sqrt liftoffHigh).currentState ≠ GameState.ORBITAL_INSERTION := by
  have h := timer_phase_of_liftoff_high Real.sqrt liftoffHigh rfl liftoffHigh_above_threshold
  refine ⟨rfl, ?_, h, ?_⟩
  · have := liftoffHigh_above_threshold
    norm_num at this ⊢
    exact this
  · rw [h]
    decide

/-- C3, amended: a tick that starts in `LIFTOFF` with the booster above the
separation threshold ends in phase `STAGE_SEPARATION` (every case of the
switch ends in `break`), and the tick after it ends in `ORBITAL_INSERTION`:
`STAGE_SEPARATION` is the phase observed at exactly one tick boundary. -/
theorem liftoff_reaches_insertion_in_two_ticks (sqrt : K → K) (s : Sim K)
    (h : s.currentState = GameState.LIFTOFF)
    (hy : s.mainBooster.position.y > 25 + WORLD_OFFSET_Y) :
    (timer sqrt s).currentState = GameState.STAGE_SEPARATION ∧
    (timer sqrt (timer sqrt s)).currentState = GameState.ORBITAL_INSERTION := by
  have hy1 : s.mainBooster.position.y > 25.0 + WORLD_OFFSET_Y := by
    norm_num at hy ⊢
    exact hy
  have h1 := timer_phase_of_liftoff_high sqrt s h hy1
  exact ⟨h1, timer_phase_of_separation sqrt _ h1⟩

/-- Witness of the amended C3 at the sample state `liftoffHigh`, over the reals. -/
theorem liftoff_reaches_insertion_in_two_ticks_witness :
    (liftoffHigh : Sim ℝ).currentState = GameState.LIFTOFF ∧
    (liftoffHigh : Sim ℝ).mainBooster.position.y > 25 + WORLD_OFFSET_Y ∧
    (timer Real.sqrt liftoffHigh).currentState = GameState.STAGE_SEPARATION ∧
    (timer Real.sqrt (timer Real.sqrt liftoffHigh)).currentState =
      GameState.ORBITAL_INSERTION :=
  have hy : (liftoffHigh : Sim ℝ).mainBooster.position.y > 25 + WORLD_OFFSET_Y := by
    show (-70 : ℝ) > 25 + WORLD_OFFSET_Y
    norm_num [WORLD_OFFSET_Y]
  ⟨rfl, hy, liftoff_reaches_insertion_in_two_ticks Real.sqrt liftoffHigh rfl hy⟩

/-- C4 as stated fails: the tick that ends `ORBITAL_INSERTION` with the
visible upper stage at the target altitude `-55`, straight above the centre
of the Earth, completes with `upperStage.velocity.y = -8/405`, not `0`: the
upper-stage block of the same tick applies gravity after the state machine
has zeroed the vertical velocity. -/
theorem insertion_end_vertical_velocity_nonzero :
    (insertionAtTarget : Sim ℝ).currentState = GameState.ORBITAL_INSERTION ∧
    (insertionAtTarget : Sim ℝ).upperStage.position.y ≥ ORBIT_ALTITUDE + WORLD_OFFSET_Y ∧
    (insertionAtTarget : Sim ℝ).upperStage.isVisible = true ∧
    (timer Real.sqrt (insertionAtTarget : Sim ℝ)).currentState =
      GameState.SATELLITE_DEPLOYMENT ∧
    (timer Real.sqrt (insertionAtTarget : Sim ℝ)).upperStage.velocity.y = -8 / 405 ∧
    (timer Real.sqrt (insertionAtTarget : Sim ℝ)).upperStage.velocity.y ≠ 0 := by
  refine ⟨rfl, insertionAtTarget_at_target, rfl, ?_, timer_insertionAtTarget_velocity_y, ?_⟩
  · exact timer_phase_of_insertion_end Real.sqrt insertionAtTarget rfl
      insertionAtTarget_at_target
  · rw [timer_insertionAtTarget_velocity_y]
    norm_num

/-- C4, amended: in the tick that ends `ORBITAL_INSERTION` (upper stage
visible and at or above `ORBIT_ALTITUDE + WORLD_OFFSET_Y`), the state machine
sets `upperStage.velocity.x` to `sqrt (GRAVITATIONAL_CONSTANT / ORBIT_ALTITUDE)`
and `upperStage.velocity.y` to `0` and leaves `velocity.z`, so that, for an
exact square root and `velocity.z = 0`, the velocity then has magnitude
`sqrt (GRAVITATIONAL_CONSTANT / ORBIT_ALTITUDE)`.  The upper-stage block of
the same tick then adds one gravity increment, computed at the position before
the tick: when the tick has completed the phase is `SATELLITE_DEPLOYMENT`,
`velocity.x` is the orbital speed plus the x-increment, `velocity.y` is the
y-increment alone, which is negative for an exact square root, and
`velocity.z` is unchanged. -/
theorem insertion_end_velocity (sqrt : K → K) (s : Sim K)
    (h : s.currentState = GameState.ORBITAL_INSERTION)
    (hy : s.upperStage.position.y ≥ ORBIT_ALTITUDE + WORLD_OFFSET_Y)
    (hv : s.upperStage.isVisible = true) :
    ((stateMachineWith GRAVITATIONAL_CONSTANT sqrt s).upperStage.velocity.x =
        sqrt (GRAVITATIONAL_CONSTANT / ORBIT_ALTITUDE) ∧
      (stateMachineWith GRAVITATIONAL_CONSTANT sqrt s).upperStage.velocity.y = 0 ∧
      (stateMachineWith GRAVITATIONAL_CONSTANT sqrt s).upperStage.velocity.z =
        s.upperStage.velocity.z ∧
      (IsSqrt sqrt → s.upperStage.velocity.z = 0 →
        sqrt ((stateMachineWith GRAVITATIONAL_CONSTANT sqrt s).upperStage.velocity.x *
              (stateMachineWith GRAVITATIONAL_CONSTANT sqrt s).upperStage.velocity.x +
            (stateMachineWith GRAVITATIONAL_CONSTANT sqrt s).upperStage.velocity.y *
              (stateMachineWith GRAVITATIONAL_CONSTANT sqrt s).upperStage.velocity.y +
            (stateMachineWith GRAVITATIONAL_CONSTANT sqrt s).upperStage.velocity.z *
              (stateMachineWith GRAVITATIONAL_CONSTANT sqrt s).upperStage.velocity.z) =
          sqrt (GRAVITATIONAL_CONSTANT / ORBIT_ALTITUDE))) ∧
    (timer sqrt s).currentState = GameState.SATELLITE_DEPLOYMENT ∧
    (timer sqrt s).upperStage.velocity.x =
      sqrt (GRAVITATIONAL_CONSTANT / ORBIT_ALTITUDE) +
        (-s.upperStage.position.x / sqrt (distSq s.upperStage)) *
          (GRAVITATIONAL_CONSTANT / distSq s.upperStage) * TIMESTEP ∧
    (timer sqrt s).upperStage.velocity.y =
      ((WORLD_OFFSET_Y - s.upperStage.position.y) / sqrt (distSq s.upperStage)) *
        (GRAVITATIONAL_CONSTANT / distSq s.upperStage) * TIMESTEP ∧
    (timer sqrt s).upperStage.velocity.z = s.upperStage.velocity.z ∧
    (IsSqrt sqrt → (timer sqrt s).upperStage.velocity.y < 0) := by
  obtain ⟨hx1, hy1, hz1⟩ := upperStageIntegrate_after_cutoff GRAVITATIONAL_CONSTANT sqrt
    s.upperStage (sqrt (GRAVITATIONAL_CONSTANT / ORBIT_ALTITUDE))
  have hty : (timer sqrt s).upperStage.velocity.y =
      ((WORLD_OFFSET_Y - s.upperStage.position.y) / sqrt (distSq s.upperStage)) *
        (GRAVITATIONAL_CONSTANT / distSq s.upperStage) * TIMESTEP := by
    rw [timer_upperStage_of_insertion_end sqrt s h hy hv, hy1]
  refine ⟨?_, ?_, ?_, hty, ?_, ?_⟩
  · rw [stateMachineWith_of_insertion_end _ sqrt s h hy]
    refine ⟨rfl, by norm_num, rfl, ?_⟩
    intro hs hz
    simp only [hz]
    have hnn : (0 : K) ≤ sqrt (GRAVITATIONAL_CONSTANT / ORBIT_ALTITUDE) :=
      (hs _ (by norm_num [GRAVITATIONAL_CONSTANT, ORBIT_ALTITUDE])).1
    have e := sqrt_mul_self_of_isSqrt sqrt hs _ hnn
    have z : ((0.0 : K) * 0.0) = 0 := by norm_num
    simp only [z, mul_zero, add_zero]
    exact e
  · exact timer_phase_of_insertion_end sqrt s h hy
  · rw [timer_upperStage_of_insertion_end sqrt s h hy hv, hx1]
  · rw [timer_upperStage_of_insertion_end sqrt s h hy hv, hz1]
  · intro hs
    rw [hty]
    have hdp := distSq_pos s.upperStage
    have hsp := sqrt_pos_of_isSqrt sqrt hs _ hdp
    have hneg : WORLD_OFFSET_Y - s.upperStage.position.y < 0 := by
      have : ORBIT_ALTITUDE + (WORLD_OFFSET_Y : K) ≤ s.upperStage.position.y := hy
      norm_num [ORBIT_ALTITUDE, WORLD_OFFSET_Y] at this ⊢
      linarith
    have h1 : (WORLD_OFFSET_Y - s.upperStage.position.y) / sqrt (distSq s.upperStage) < 0 :=
      div_neg_of_neg_of_pos hneg hsp
    have h2 : (0 : K) < GRAVITATIONAL_CONSTANT / distSq s.upperStage :=
      div_pos (by norm_num [GRAVITATIONAL_CONSTANT]) hdp
    have h3 : (0 : K) < TIMESTEP := by norm_num [TIMESTEP]
    exact mul_neg_of_neg_of_pos (mul_neg_of_neg_of_pos h1 h2) h3

/-- Witness of the amended C4 at the sample state `insertionAtTarget`, over
the reals with the real square root. -/
theorem insertion_end_velocity_witness :
    (timer Real.sqrt (insertionAtTarget : Sim ℝ)).currentState =
      GameState.SATELLITE_DEPLOYMENT ∧
    (timer Real.sqrt (insertionAtTarget : Sim ℝ)).upperStage.velocity.y < 0 ∧
    Real.sqrt
        ((stateMachineWith GRAVITATIONAL_CONSTANT Real.sqrt
              (insertionAtTarget : Sim ℝ)).upperStage.velocity.x *
            (stateMachineWith GRAVITATIONAL_CONSTANT Real.sqrt
              (insertionAtTarget : Sim ℝ)).upperStage.velocity.x +
          (stateMachineWith GRAVITATIONAL_CONSTANT Real.sqrt
              (insertionAtTarget : Sim ℝ)).upperStage.velocity.y *
            (stateMachineWith GRAVITATIONAL_CONSTANT Real.sqrt
              (insertionAtTarget : Sim ℝ)).upperStage.velocity.y +
          (stateMachineWith GRAVITATIONAL_CONSTANT Real.sqrt
              (insertionAtTarget : Sim ℝ)).upperStage.velocity.z *
            (stateMachineWith GRAVITATIONAL_CONSTANT Real.sqrt
              (insertionAtTarget : Sim ℝ)).upperStage.velocity.z) =
      Real.sqrt (GRAVITATIONAL_CONSTANT / ORBIT_ALTITUDE) :=
  have h := insertion_end_velocity Real.sqrt (insertionAtTarget : Sim ℝ) rfl
    insertionAtTarget_at_target rfl
  ⟨h.2.1, h.2.2.2.2.2 real_isSqrt, h.1.2.2.2 real_isSqrt rfl⟩

/-- C5 as stated fails: in the tick that resolves `SATELLITE_DEPLOYMENT` with
the upper stage at `(0, -55, 0)` moving at `(7, 0, 0)`, the satellite ends at
`position.x = 7 * 0.016 = 14/125`, not at the upper stage's `position.x = 0`:
the satellite block of the same tick has already moved the released
satellite. -/
theorem deployed_satellite_already_moved :
    (deploymentReady : Sim ℝ).currentState = GameState.SATELLITE_DEPLOYMENT ∧
    (deploymentReady : Sim ℝ).upperStage.position.x = 0 ∧
    (timer Real.sqrt (deploymentReady : Sim ℝ)).satellite.position.x = 14 / 125 ∧
    (timer Real.sqrt (deploymentReady : Sim ℝ)).satellite.position ≠
      (deploymentReady : Sim ℝ).upperStage.position := by
  refine ⟨rfl, rfl, timer_deploymentReady_position_x, ?_⟩
  intro hc
  have hx := congrArg Vector3D.x hc
  rw [timer_deploymentReady_position_x] at hx
  have h0 : (deploymentReady : Sim ℝ).upperStage.position.x = 0 := rfl
  rw [h0] at hx
  norm_num at hx

/-- C5, amended: after the tick that starts in `SATELLITE_DEPLOYMENT` the phase
is `MISSION_SUCCESS`, the upper stage is hidden and has not moved, the
satellite is visible, and the satellite's velocity and position are those the
upper stage had at the start of the tick advanced by one integration step of
the satellite block (gravity increment on `velocity.x` and `velocity.y`, then
`position += velocity * TIMESTEP`); the `z` components are copied unchanged. -/
theorem deployment_releases_satellite (sqrt : K → K) (s : Sim K)
    (h : s.currentState = GameState.SATELLITE_DEPLOYMENT) :
    (timer sqrt s).currentState = GameState.MISSION_SUCCESS ∧
    (timer sqrt s).upperStage.isVisible = false ∧
    (timer sqrt s).upperStage.position = s.upperStage.position ∧
    (timer sqrt s).upperStage.velocity = s.upperStage.velocity ∧
    (timer sqrt s).satellite.isVisible = true ∧
    (timer sqrt s).satellite.velocity.x =
      s.upperStage.velocity.x +
        (-s.upperStage.position.x / sqrt (distSq s.upperStage)) *
          (GRAVITATIONAL_CONSTANT / distSq s.upperStage) * TIMESTEP ∧
    (timer sqrt s).satellite.velocity.y =
      s.upperStage.velocity.y +
        ((WORLD_OFFSET_Y - s.upperStage.position.y) / sqrt (distSq s.upperStage)) *
          (GRAVITATIONAL_CONSTANT / distSq s.upperStage) * TIMESTEP ∧
    (timer sqrt s).satellite.velocity.z = s.upperStage.velocity.z ∧
    (timer sqrt s).satellite.position.x =
      s.upperStage.position.x + (timer sqrt s).satellite.velocity.x * TIMESTEP ∧
    (timer sqrt s).satellite.position.y =
      s.upperStage.position.y + (timer sqrt s).satellite.velocity.y * TIMESTEP ∧
    (timer sqrt s).satellite.position.z = s.upperStage.position.z := by
  obtain ⟨h1, h2, h3, h4, h5, h6, h7⟩ := timer_satellite_motion_of_deployment sqrt s h
  have hu := timer_upperStage_of_deployment sqrt s h
  refine ⟨timer_phase_of_deployment sqrt s h, ?_, ?_, ?_, h7, h1, h2, h3, h4, h5, h6⟩
  · rw [hu]
  · rw [hu]
  · rw [hu]

/-- Witness of the amended C5 at the sample state `deploymentReady`, over the
reals with the real square root. -/
theorem deployment_releases_satellite_witness :
    (deploymentReady : Sim ℝ).currentState = GameState.SATELLITE_DEPLOYMENT ∧
    (timer Real.sqrt (deploymentReady : Sim ℝ)).currentState = GameState.MISSION_SUCCESS ∧
    (timer Real.sqrt (deploymentReady : Sim ℝ)).upperStage.isVisible = false ∧
    (timer Real.sqrt (deploymentReady : Sim ℝ)).satellite.isVisible = true :=
  have h := deployment_releases_satellite Real.sqrt (deploymentReady : Sim ℝ) rfl
  ⟨rfl, h.1, h.2.1, h.2.2.2.2.1⟩

/-- C7: `resetSimulation` sets the phase to `PRE_LAUNCH`, the booster to
`(0, EARTH_RADIUS + WORLD_OFFSET_Y, 0)`, the upper stage four units above it
and the satellite to the origin; all three at rest with angle `0` and no
thrust, booster and upper stage visible, satellite hidden.  Phase and bodies
after a reset therefore do not depend on the state before it, and a second
reset changes nothing.  (The status text and the camera angle, which are not
part of the simulation state, are left as they were.) -/
theorem reset_restores_initial (s t : Sim K) :
    (resetSimulation s).currentState = GameState.PRE_LAUNCH ∧
    (resetSimulation s).mainBooster =
      ⟨⟨0, EARTH_RADIUS + WORLD_OFFSET_Y, 0⟩, ⟨0, 0, 0⟩, 0, true, false⟩ ∧
    (resetSimulation s).upperStage =
      ⟨⟨0, (resetSimulation s).mainBooster.position.y + 4, 0⟩, ⟨0, 0, 0⟩, 0, true, false⟩ ∧
    (resetSimulation s).satellite = ⟨⟨0, 0, 0⟩, ⟨0, 0, 0⟩, 0, false, false⟩ ∧
    ((resetSimulation s).currentState = (resetSimulation t).currentState ∧
      (resetSimulation s).mainBooster = (resetSimulation t).mainBooster ∧
      (resetSimulation s).upperStage = (resetSimulation t).upperStage ∧
      (resetSimulation s).satellite = (resetSimulation t).satellite) ∧
    resetSimulation (resetSimulation s) = resetSimulation s ∧
    ((resetSimulation s).missionStatusText = s.missionStatusText ∧
      (resetSimulation s).cameraAngle = s.cameraAngle) := by
  refine ⟨rfl, ?_, ?_, ?_, ⟨rfl, rfl, rfl, rfl⟩, rfl, rfl, rfl⟩
  · simp only [resetSimulation]
    norm_num
  · simp only [resetSimulation]
    norm_num
  · simp only [resetSimulation]
    norm_num

/-- C8: with the gravitational constant replaced by `0`, `N` consecutive
integration steps of a visible, thrusting booster that starts at rest at
height `y0` give `velocity.y = BOOSTER_THRUST * TIMESTEP * N` and
`position.y = y0 + TIMESTEP * (sum over k = 1..N of BOOSTER_THRUST * TIMESTEP * k)`,
which is `y0 + BOOSTER_THRUST * TIMESTEP ^ 2 * (N * (N + 1) / 2)`, while
`velocity.x` stays `0` and `position.x` stays where it was; the booster is
still visible and thrusting, so each of the `N` steps did integrate. -/
theorem thrust_only_closed_form (sqrt : K → K) (b : PhysicsObject K) (N : ℕ)
    (hv : b.isVisible = true) (ht : b.hasThrust = true)
    (hrest : b.velocity = ⟨0, 0, 0⟩) :
    ((boosterStep 0 sqrt)^[N] b).velocity.y = BOOSTER_THRUST * TIMESTEP * N ∧
    ((boosterStep 0 sqrt)^[N] b).position.y =
      b.position.y +
        TIMESTEP * ∑ k ∈ Finset.range N, BOOSTER_THRUST * TIMESTEP * ((k : K) + 1) ∧
    ((boosterStep 0 sqrt)^[N] b).position.y =
      b.position.y + BOOSTER_THRUST * TIMESTEP ^ 2 * ((N : K) * ((N : K) + 1) / 2) ∧
    ((boosterStep 0 sqrt)^[N] b).velocity.x = b.velocity.x ∧
    ((boosterStep 0 sqrt)^[N] b).position.x = b.position.x ∧
    ((boosterStep 0 sqrt)^[N] b).isVisible = true ∧
    ((boosterStep 0 sqrt)^[N] b).hasThrust = true := by
  have hx : b.velocity.x = 0 := by rw [hrest]
  have hy : b.velocity.y = 0 := by rw [hrest]
  obtain ⟨i1, i2, i3, i4, i5, i6⟩ := boosterStep_iterate_no_gravity sqrt b N hv ht hx hy
  refine ⟨i4, i6, ?_, by rw [i3, hx], i5, i1, i2⟩
  rw [i6, sum_thrust_velocities]
  ring

/-- Witness of C8: three steps from the launch pad, over the reals; the
vertical velocity is `3 * 23 * 0.016 = 138/125`. -/
theorem thrust_only_closed_form_witness :
    ((boosterStep 0 Real.sqrt)^[3]
      (⟨⟨0, -85, 0⟩, ⟨0, 0, 0⟩, 0, true, true⟩ : PhysicsObject ℝ)).velocity.y = 138 / 125 ∧
    ((boosterStep 0 Real.sqrt)^[3]
      (⟨⟨0, -85, 0⟩, ⟨0, 0, 0⟩, 0, true, true⟩ : PhysicsObject ℝ)).position.x = 0 := by
  have h := thrust_only_closed_form Real.sqrt
    (⟨⟨0, -85, 0⟩, ⟨0, 0, 0⟩, 0, true, true⟩ : PhysicsObject ℝ) 3 rfl rfl rfl
  refine ⟨?_, h.2.2.2.2.1⟩
  rw [h.1]
  norm_num [BOOSTER_THRUST, TIMESTEP]

/-- C9 as stated fails: the state right after the launch request, reachable
from the reset state, is in phase `LIFTOFF` with neither the booster nor the
upper stage thrusting. -/
theorem launched_state_has_no_thrust :
    Reachable Real.sqrt (keyboard 'l' 0 0 (resetSimulation (startup : Sim ℝ))) ∧
    (keyboard 'l' 0 0 (resetSimulation (startup : Sim ℝ))).currentState =
      GameState.LIFTOFF ∧
    (keyboard 'l' 0 0 (resetSimulation (startup : Sim ℝ))).mainBooster.hasThrust = false ∧
    (keyboard 'l' 0 0 (resetSimulation (startup : Sim ℝ))).upperStage.hasThrust = false :=
  ⟨reachable_launched Real.sqrt, rfl, rfl, rfl⟩

/-- C9, amended: in every state reachable from a reset state by ticks and
launch requests the booster and the upper stage are not both thrusting.
Exactly one thrusts in `STAGE_SEPARATION` (the booster) and in
`ORBITAL_INSERTION` (the upper stage); in `LIFTOFF` the upper stage does not
thrust and the booster thrusts from the first tick on (after a tick from a
`LIFTOFF` state the booster thrusts and the upper stage does not); in
`SATELLITE_DEPLOYMENT` and `MISSION_SUCCESS` neither thrusts. -/
theorem thrust_flags_by_phase (sqrt : K → K) (s : Sim K) (h : Reachable sqrt s) :
    ¬ (s.mainBooster.hasThrust = true ∧ s.upperStage.hasThrust = true) ∧
    (s.currentState = GameState.STAGE_SEPARATION →
      s.mainBooster.hasThrust = true ∧ s.upperStage.hasThrust = false) ∧
    (s.currentState = GameState.ORBITAL_INSERTION →
      s.mainBooster.hasThrust = false ∧ s.upperStage.hasThrust = true) ∧
    (s.currentState = GameState.LIFTOFF →
      s.upperStage.hasThrust = false ∧
      (timer sqrt s).mainBooster.hasThrust = true ∧
      (timer sqrt s).upperStage.hasThrust = false) ∧
    (s.currentState = GameState.SATELLITE_DEPLOYMENT ∨
        s.currentState = GameState.MISSION_SUCCESS →
      s.mainBooster.hasThrust = false ∧ s.upperStage.hasThrust = false) := by
  have hi := thrustInv_of_reachable sqrt s h
  unfold ThrustInv at hi
  refine ⟨?_, ?_, ?_, ?_, ?_⟩
  · cases hc : s.currentState <;> simp only [hc] at hi <;> simp_all
  · intro hc
    simpa [hc] using hi
  · intro hc
    simpa [hc] using hi
  · intro hc
    obtain ⟨hb, hu⟩ := timer_hasThrust sqrt s
    obtain ⟨sb, su⟩ := stateMachineWith_hasThrust GRAVITATIONAL_CONSTANT sqrt s
    simp only [hc] at hi sb su
    exact ⟨hi, by rw [hb, sb], by rw [hu, su, hi]⟩
  · intro hc
    rcases hc with hc | hc <;> simpa [hc] using hi

/-- Witness of the amended C9 at the state right after the launch request:
the next tick switches the booster's thrust on. -/
theorem thrust_flags_by_phase_witness :
    (keyboard 'l' 0 0 (resetSimulation (startup : Sim ℝ))).currentState =
      GameState.LIFTOFF ∧
    (timer Real.sqrt (keyboard 'l' 0 0 (resetSimulation (startup : Sim ℝ)))).mainBooster.hasThrust
      = true ∧
    (timer Real.sqrt (keyboard 'l' 0 0 (resetSimulation (startup : Sim ℝ)))).upperStage.hasThrust
      = false :=
  have h := (thrust_flags_by_phase Real.sqrt _ (reachable_launched Real.sqrt)).2.2.2.1 rfl
  ⟨rfl, h.2.1, h.2.2⟩

/-- C10: whenever the phase is `LIFTOFF` when a tick completes, the upper
stage is locked to the booster at that point: same `position.x`,
`position.y` four units above the booster's, and the booster's velocity,
whatever the upper stage's position and velocity were before the tick. -/
theorem liftoff_upper_stage_locked (sqrt : K → K) (s : Sim K)
    (h : (timer sqrt s).currentState = GameState.LIFTOFF) :
    (timer sqrt s).upperStage.position.x = (timer sqrt s).mainBooster.position.x ∧
    (timer sqrt s).upperStage.position.y = (timer sqrt s).mainBooster.position.y + 4 ∧
    (timer sqrt s).upperStage.velocity = (timer sqrt s).mainBooster.velocity := by
  rw [timer_currentState] at h
  unfold timer timerWith
  exact physicsWith_locked _ sqrt _ h

/-- Witness of C10: the first tick after the launch request, over the reals. -/
theorem liftoff_upper_stage_locked_witness :
    (timer Real.sqrt (keyboard 'l' 0 0 (resetSimulation (startup : Sim ℝ)))).currentState =
      GameState.LIFTOFF ∧
    (timer Real.sqrt (keyboard 'l' 0 0 (resetSimulation (startup : Sim ℝ)))).upperStage.velocity =
      (timer Real.sqrt (keyboard 'l' 0 0 (resetSimulation (startup : Sim ℝ)))).mainBooster.velocity :=
  ⟨launched_tick_phase Real.sqrt,
    (liftoff_upper_stage_locked Real.sqrt _ (launched_tick_phase Real.sqrt)).2.2⟩

/-- C11: a launch request (`keyboard` with `l` or `L`) turns `PRE_LAUNCH` into
`LIFTOFF`, leaves every other phase as it is, and in every phase leaves the
booster, the upper stage and the satellite (position, velocity, angle,
visibility, thrust flag) unchanged. -/
theorem launch_request_only_in_prelaunch (key : Char) (hk : key = 'l' ∨ key = 'L')
    (x y : Int) (s : Sim K) :
    (s.currentState = GameState.PRE_LAUNCH →
      (keyboard key x y s).currentState = GameState.LIFTOFF) ∧
    (s.currentState ≠ GameState.PRE_LAUNCH →
      (keyboard key x y s).currentState = s.currentState) ∧
    (keyboard key x y s).mainBooster = s.mainBooster ∧
    (keyboard key x y s).upperStage = s.upperStage ∧
    (keyboard key x y s).satellite = s.satellite := by
  rw [keyboard_launch_effect key hk x y s]
  refine ⟨?_, ?_, ?_, ?_, ?_⟩
  · intro h
    rw [if_pos h]
  · intro h
    rw [if_neg h]
  · split_ifs <;> rfl
  · split_ifs <;> rfl
  · split_ifs <;> rfl

/-- Witness of C11: the key `L` in the reset state, which is in `PRE_LAUNCH`,
and the key `l` in the sample state `liftoffHigh`, which is not. -/
theorem launch_request_only_in_prelaunch_witness :
    (keyboard 'L' 3 4 (resetSimulation (startup : Sim ℝ))).currentState =
      GameState.LIFTOFF ∧
    (keyboard 'l' 3 4 (liftoffHigh : Sim ℝ)).currentState =
      (liftoffHigh : Sim ℝ).currentState ∧
    (keyboard 'l' 3 4 (liftoffHigh : Sim ℝ)).mainBooster = (liftoffHigh : Sim ℝ).mainBooster :=
  have hne : (liftoffHigh : Sim ℝ).currentState ≠ GameState.PRE_LAUNCH := by
    show GameState.LIFTOFF ≠ GameState.PRE_LAUNCH
    decide
  ⟨(launch_request_only_in_prelaunch 'L' (Or.inr rfl) 3 4
      (resetSimulation (startup : Sim ℝ))).1 rfl,
    (launch_request_only_in_prelaunch 'l' (Or.inl rfl) 3 4 (liftoffHigh : Sim ℝ)).2.1 hne,
    (launch_request_only_in_prelaunch 'l' (Or.inl rfl) 3 4 (liftoffHigh : Sim ℝ)).2.2.1⟩

/-- C12: a tick that starts in `LIFTOFF` ends in another phase exactly when the
booster is strictly above `25 + WORLD_OFFSET_Y` at the start of the tick, and
a tick that starts in `ORBITAL_INSERTION` ends in another phase exactly when
the upper stage is at or above `ORBIT_ALTITUDE + WORLD_OFFSET_Y` at the start
of the tick. -/
theorem guarded_transitions_fire_on_condition (sqrt : K → K) (s : Sim K) :
    (s.currentState = GameState.LIFTOFF →
      ((timer sqrt s).currentState ≠ GameState.LIFTOFF ↔
        s.mainBooster.position.y > 25 + WORLD_OFFSET_Y)) ∧
    (s.currentState = GameState.ORBITAL_INSERTION →
      ((timer sqrt s).currentState ≠ GameState.ORBITAL_INSERTION ↔
        s.upperStage.position.y ≥ ORBIT_ALTITUDE + WORLD_OFFSET_Y)) := by
  rw [timer_currentState, stateMachineWith_currentState]
  constructor
  · intro h
    have e : (25.0 : K) = 25 := by norm_num
    simp only [h, e]
    split_ifs with hc <;> simp [hc]
  · intro h
    simp only [h]
    split_ifs with hc <;> simp [hc]

/-- Witness of C12: in `LIFTOFF` the booster at `-70` leaves the phase and the
booster exactly at the threshold `-75` stays; in `ORBITAL_INSERTION` the upper
stage exactly at the target `-55` leaves the phase. -/
theorem guarded_transitions_fire_on_condition_witness :
    (timer Real.sqrt (liftoffHigh : Sim ℝ)).currentState ≠ GameState.LIFTOFF ∧
    ¬ ((timer Real.sqrt (liftoffAtThreshold : Sim ℝ)).currentState ≠ GameState.LIFTOFF) ∧
    (timer Real.sqrt (insertionAtTarget : Sim ℝ)).currentState ≠
      GameState.ORBITAL_INSERTION :=
  have hy : (liftoffHigh : Sim ℝ).mainBooster.position.y > 25 + WORLD_OFFSET_Y := by
    show (-70 : ℝ) > 25 + WORLD_OFFSET_Y
    norm_num [WORLD_OFFSET_Y]
  ⟨((guarded_transitions_fire_on_condition Real.sqrt (liftoffHigh : Sim ℝ)).1 rfl).2 hy,
    fun hc => liftoffAtThreshold_not_above
      (((guarded_transitions_fire_on_condition Real.sqrt
        (liftoffAtThreshold : Sim ℝ)).1 rfl).1 hc),
    ((guarded_transitions_fire_on_condition Real.sqrt (insertionAtTarget : Sim ℝ)).2 rfl).2
      insertionAtTarget_at_target⟩

/-- C14: a tick that starts in `STAGE_SEPARATION` with a visible booster ends
in `ORBITAL_INSERTION` with the booster's thrust off and the upper stage's
thrust on, and the separation kick is seen by the integration of the same
tick: the booster's `velocity.x` after the tick is `-1` plus the gravity
increment of the tick (computed at the position before the tick; the
`velocity.x` before the tick does not enter), and `position.x` has advanced by
that new `velocity.x` times `TIMESTEP`. -/
theorem separation_kick_is_integrated (sqrt : K → K) (s : Sim K)
    (h : s.currentState = GameState.STAGE_SEPARATION)
    (hv : s.mainBooster.isVisible = true) :
    (timer sqrt s).currentState = GameState.ORBITAL_INSERTION ∧
    (timer sqrt s).mainBooster.hasThrust = false ∧
    (timer sqrt s).upperStage.hasThrust = true ∧
    (timer sqrt s).mainBooster.velocity.x =
      -1 + (-s.mainBooster.position.x / sqrt (distSq s.mainBooster)) *
        (GRAVITATIONAL_CONSTANT / distSq s.mainBooster) * TIMESTEP ∧
    (timer sqrt s).mainBooster.position.x =
      s.mainBooster.position.x + (timer sqrt s).mainBooster.velocity.x * TIMESTEP := by
  obtain ⟨hb, hu⟩ := timer_hasThrust sqrt s
  obtain ⟨sb, su⟩ := stateMachineWith_hasThrust GRAVITATIONAL_CONSTANT sqrt s
  simp only [h] at sb su
  obtain ⟨k1, k2⟩ := timer_booster_x_of_separation sqrt s h hv
  exact ⟨timer_phase_of_separation sqrt s h, by rw [hb, sb], by rw [hu, su], k1, k2⟩

/-- Witness of C14 at the sample state `separationPending`, over the reals. -/
theorem separation_kick_is_integrated_witness :
    (separationPending : Sim ℝ).currentState = GameState.STAGE_SEPARATION ∧
    (separationPending : Sim ℝ).mainBooster.isVisible = true ∧
    (timer Real.sqrt (separationPending : Sim ℝ)).currentState =
      GameState.ORBITAL_INSERTION ∧
    (timer Real.sqrt (separationPending : Sim ℝ)).mainBooster.hasThrust = false ∧
    (timer Real.sqrt (separationPending : Sim ℝ)).upperStage.hasThrust = true :=
  have h := separation_kick_is_integrated Real.sqrt (separationPending : Sim ℝ) rfl rfl
  ⟨rfl, rfl, h.1, h.2.1, h.2.2.1⟩

/-- C13 as stated fails below the floor: the visible satellite at rest at
`(0, -100.5, 0)`, at squared distance `1/4` from the centre of the Earth,
gains the velocity `(0, 20)` in one tick, of magnitude `20`, while
`GRAVITATIONAL_CONSTANT / max (1/4) 1 * TIMESTEP` is `40`: the direction
vector is divided by `sqrt(dist_sq)` after the floor, which is `1`, not by its
own length `1/2`. -/
theorem gravity_increment_below_floor :
    (satelliteNearCentre : Sim ℝ).satellite.isVisible = true ∧
    planarDistSq (satelliteNearCentre : Sim ℝ).satellite = 1 / 4 ∧
    (timer Real.sqrt (satelliteNearCentre : Sim ℝ)).satellite.velocity.x -
      (satelliteNearCentre : Sim ℝ).satellite.velocity.x = 0 ∧
    (timer Real.sqrt (satelliteNearCentre : Sim ℝ)).satellite.velocity.y -
      (satelliteNearCentre : Sim ℝ).satellite.velocity.y = 20 ∧
    Real.sqrt
      (((timer Real.sqrt (satelliteNearCentre : Sim ℝ)).satellite.velocity.x -
          (satelliteNearCentre : Sim ℝ).satellite.velocity.x) *
        ((timer Real.sqrt (satelliteNearCentre : Sim ℝ)).satellite.velocity.x -
          (satelliteNearCentre : Sim ℝ).satellite.velocity.x) +
      ((timer Real.sqrt (satelliteNearCentre : Sim ℝ)).satellite.velocity.y -
          (satelliteNearCentre : Sim ℝ).satellite.velocity.y) *
        ((timer Real.sqrt (satelliteNearCentre : Sim ℝ)).satellite.velocity.y -
          (satelliteNearCentre : Sim ℝ).satellite.velocity.y)) ≠
      GRAVITATIONAL_CONSTANT /
        max (planarDistSq (satelliteNearCentre : Sim ℝ).satellite) 1 * TIMESTEP := by
  obtain ⟨v1, v2⟩ := timer_satelliteNearCentre_velocity
  have e1 : (timer Real.sqrt (satelliteNearCentre : Sim ℝ)).satellite.velocity.x -
      (satelliteNearCentre : Sim ℝ).satellite.velocity.x = 0 := by
    rw [v1]
    show (0 : ℝ) - 0 = 0
    norm_num
  have e2 : (timer Real.sqrt (satelliteNearCentre : Sim ℝ)).satellite.velocity.y -
      (satelliteNearCentre : Sim ℝ).satellite.velocity.y = 20 := by
    rw [v2]
    show (20 : ℝ) - 0 = 20
    norm_num
  refine ⟨rfl, satelliteNearCentre_planarDistSq, e1, e2, ?_⟩
  rw [e1, e2, satelliteNearCentre_planarDistSq]
  have e3 : (0 : ℝ) * 0 + 20 * 20 = 400 := by norm_num
  rw [e3, real_sqrt_400]
  norm_num [GRAVITATIONAL_CONSTANT, TIMESTEP]

/-- C13, amended: with `t` the state the switch of the tick leaves, every body
the tick integrates (the booster when visible, the upper stage when visible
from `STAGE_SEPARATION` on, the satellite when visible; after launch) gets
`gravityIncrement` added to `velocity.x` and `velocity.y`, beside its thrust.
For an exact square root and an object at squared planar distance `d2` from
`(0, WORLD_OFFSET_Y)`: if `d2 ≥ 1` the increment has magnitude
`GRAVITATIONAL_CONSTANT / d2 * TIMESTEP` and is that magnitude times the
unit vector from the object toward the attractor; if `d2 < 1` the floor makes
`dist_sq = 1`, the direction vector is divided by `sqrt 1 = 1` and not by its
length, and the increment is `dir * GRAVITATIONAL_CONSTANT * TIMESTEP`, of
magnitude `sqrt d2 * GRAVITATIONAL_CONSTANT * TIMESTEP`, which is less than
`GRAVITATIONAL_CONSTANT / max d2 1 * TIMESTEP`. -/
theorem gravity_increment_law (sqrt : K → K) (hs : IsSqrt sqrt) (s t : Sim K)
    (ht : t = stateMachineWith GRAVITATIONAL_CONSTANT sqrt s) (o : PhysicsObject K) :
    (t.currentState ≠ GameState.PRE_LAUNCH → t.mainBooster.isVisible = true →
      (timer sqrt s).mainBooster.velocity.x =
        t.mainBooster.velocity.x +
          (gravityIncrement GRAVITATIONAL_CONSTANT sqrt t.mainBooster).1 ∧
      (timer sqrt s).mainBooster.velocity.y =
        (t.mainBooster.velocity.y +
          (gravityIncrement GRAVITATIONAL_CONSTANT sqrt t.mainBooster).2) +
          (if t.mainBooster.hasThrust then BOOSTER_THRUST * TIMESTEP else 0)) ∧
    (t.currentState.toNat ≥ GameState.STAGE_SEPARATION.toNat →
      t.upperStage.isVisible = true →
      (timer sqrt s).upperStage.velocity.x =
        t.upperStage.velocity.x +
          (gravityIncrement GRAVITATIONAL_CONSTANT sqrt t.upperStage).1 ∧
      (timer sqrt s).upperStage.velocity.y =
        (t.upperStage.velocity.y +
          (gravityIncrement GRAVITATIONAL_CONSTANT sqrt t.upperStage).2) +
          (if t.upperStage.hasThrust then UPPER_STAGE_THRUST * TIMESTEP else 0)) ∧
    (t.currentState ≠ GameState.PRE_LAUNCH → t.satellite.isVisible = true →
      (timer sqrt s).satellite.velocity.x =
        t.satellite.velocity.x +
          (gravityIncrement GRAVITATIONAL_CONSTANT sqrt t.satellite).1 ∧
      (timer sqrt s).satellite.velocity.y =
        t.satellite.velocity.y +
          (gravityIncrement GRAVITATIONAL_CONSTANT sqrt t.satellite).2) ∧
    (1 ≤ planarDistSq o →
      distSq o = planarDistSq o ∧
      sqrt ((gravityIncrement GRAVITATIONAL_CONSTANT sqrt o).1 *
            (gravityIncrement GRAVITATIONAL_CONSTANT sqrt o).1 +
          (gravityIncrement GRAVITATIONAL_CONSTANT sqrt o).2 *
            (gravityIncrement GRAVITATIONAL_CONSTANT sqrt o).2) =
        GRAVITATIONAL_CONSTANT / planarDistSq o * TIMESTEP ∧
      (gravityIncrement GRAVITATIONAL_CONSTANT sqrt o).1 =
        (GRAVITATIONAL_CONSTANT / planarDistSq o * TIMESTEP) *
          (-o.position.x / sqrt (planarDistSq o)) ∧
      (gravityIncrement GRAVITATIONAL_CONSTANT sqrt o).2 =
        (GRAVITATIONAL_CONSTANT / planarDistSq o * TIMESTEP) *
          ((WORLD_OFFSET_Y - o.position.y) / sqrt (planarDistSq o)) ∧
      sqrt ((-o.position.x / sqrt (planarDistSq o)) *
            (-o.position.x / sqrt (planarDistSq o)) +
          ((WORLD_OFFSET_Y - o.position.y) / sqrt (planarDistSq o)) *
            ((WORLD_OFFSET_Y - o.position.y) / sqrt (planarDistSq o))) = 1) ∧
    (planarDistSq o < 1 →
      distSq o = 1 ∧
      (gravityIncrement GRAVITATIONAL_CONSTANT sqrt o).1 =
        -o.position.x * (GRAVITATIONAL_CONSTANT * TIMESTEP) ∧
      (gravityIncrement GRAVITATIONAL_CONSTANT sqrt o).2 =
        (WORLD_OFFSET_Y - o.position.y) * (GRAVITATIONAL_CONSTANT * TIMESTEP) ∧
      sqrt ((gravityIncrement GRAVITATIONAL_CONSTANT sqrt o).1 *
            (gravityIncrement GRAVITATIONAL_CONSTANT sqrt o).1 +
          (gravityIncrement GRAVITATIONAL_CONSTANT sqrt o).2 *
            (gravityIncrement GRAVITATIONAL_CONSTANT sqrt o).2) =
        sqrt (planarDistSq o) * (GRAVITATIONAL_CONSTANT * TIMESTEP) ∧
      sqrt ((gravityIncrement GRAVITATIONAL_CONSTANT sqrt o).1 *
            (gravityIncrement GRAVITATIONAL_CONSTANT sqrt o).1 +
          (gravityIncrement GRAVITATIONAL_CONSTANT sqrt o).2 *
            (gravityIncrement GRAVITATIONAL_CONSTANT sqrt o).2) <
        GRAVITATIONAL_CONSTANT / distSq o * TIMESTEP) := by
  have hG : (0 : K) < GRAVITATIONAL_CONSTANT := by norm_num [GRAVITATIONAL_CONSTANT]
  have e : timer sqrt s = physicsWith GRAVITATIONAL_CONSTANT sqrt t := by
    rw [ht]
    rfl
  rw [e]
  exact ⟨fun h hv => physicsWith_mainBooster_gravity _ sqrt t h hv,
    fun h hv => physicsWith_upperStage_gravity _ sqrt t h hv,
    fun h hv => physicsWith_satellite_gravity _ sqrt t h hv,
    fun hd => gravityIncrement_far _ (le_of_lt hG) sqrt hs o hd,
    fun hd => gravityIncrement_near _ hG sqrt hs o hd⟩

/-- Witness of the amended C13, over the reals with the real square root: the
tick from `separationPending` integrates the booster and the upper stage, the
tick from `satelliteNearCentre` the satellite; the booster of the first is far
from the centre, the satellite of the second is below the floor. -/
theorem gravity_increment_law_witness :
    (timer Real.sqrt (separationPending : Sim ℝ)).mainBooster.velocity.x =
      (stateMachineWith GRAVITATIONAL_CONSTANT Real.sqrt
          (separationPending : Sim ℝ)).mainBooster.velocity.x +
        (gravityIncrement GRAVITATIONAL_CONSTANT Real.sqrt
          (stateMachineWith GRAVITATIONAL_CONSTANT Real.sqrt
            (separationPending : Sim ℝ)).mainBooster).1 ∧
    (timer Real.sqrt (separationPending : Sim ℝ)).upperStage.velocity.x =
      (stateMachineWith GRAVITATIONAL_CONSTANT Real.sqrt
          (separationPending : Sim ℝ)).upperStage.velocity.x +
        (gravityIncrement GRAVITATIONAL_CONSTANT Real.sqrt
          (stateMachineWith GRAVITATIONAL_CONSTANT Real.sqrt
            (separationPending : Sim ℝ)).upperStage).1 ∧
    (timer Real.sqrt (satelliteNearCentre : Sim ℝ)).satellite.velocity.x =
      (stateMachineWith GRAVITATIONAL_CONSTANT Real.sqrt
          (satelliteNearCentre : Sim ℝ)).satellite.velocity.x +
        (gravityIncrement GRAVITATIONAL_CONSTANT Real.sqrt
          (stateMachineWith GRAVITATIONAL_CONSTANT Real.sqrt
            (satelliteNearCentre : Sim ℝ)).satellite).1 ∧
    distSq (separationPending : Sim ℝ).mainBooster =
      planarDistSq (separationPending : Sim ℝ).mainBooster ∧
    distSq (satelliteNearCentre : Sim ℝ).satellite = 1 :=
  have hnear : planarDistSq (satelliteNearCentre : Sim ℝ).satellite < 1 := by
    rw [satelliteNearCentre_planarDistSq]
    norm_num
  have hne : (stateMachineWith GRAVITATIONAL_CONSTANT Real.sqrt
      (separationPending : Sim ℝ)).currentState ≠ GameState.PRE_LAUNCH := by
    show GameState.ORBITAL_INSERTION ≠ GameState.PRE_LAUNCH
    decide
  have hge : (stateMachineWith GRAVITATIONAL_CONSTANT Real.sqrt
      (separationPending : Sim ℝ)).currentState.toNat ≥
        GameState.STAGE_SEPARATION.toNat := by
    show GameState.ORBITAL_INSERTION.toNat ≥ GameState.STAGE_SEPARATION.toNat
    decide
  have hne2 : (stateMachineWith GRAVITATIONAL_CONSTANT Real.sqrt
      (satelliteNearCentre : Sim ℝ)).currentState ≠ GameState.PRE_LAUNCH := by
    show GameState.MISSION_SUCCESS ≠ GameState.PRE_LAUNCH
    decide
  have h1 := gravity_increment_law Real.sqrt real_isSqrt (separationPending : Sim ℝ) _ rfl
    (separationPending : Sim ℝ).mainBooster
  have h2 := gravity_increment_law Real.sqrt real_isSqrt (satelliteNearCentre : Sim ℝ) _ rfl
    (satelliteNearCentre : Sim ℝ).satellite
  ⟨(h1.1 hne rfl).1, (h1.2.1 hge rfl).1, (h2.2.2.1 hne2 rfl).1,
    (h1.2.2.2.1 separationPending_planarDistSq).1, (h2.2.2.2.2 hnear).1⟩

/-- C15: in every state reachable from a reset state by ticks and launch
requests the booster and the upper stage are not both thrusting, and once the
phase is `ORBITAL_INSERTION` or later the booster does not thrust, in that
state and after every further sequence of ticks and launch requests. -/
theorem booster_thrust_ends_at_insertion (sqrt : K → K) (s : Sim K)
    (h : Reachable sqrt s) :
    ¬ (s.mainBooster.hasThrust = true ∧ s.upperStage.hasThrust = true) ∧
    (s.currentState.toNat ≥ GameState.ORBITAL_INSERTION.toNat →
      ∀ es : List Event, (run sqrt es s).mainBooster.hasThrust = false) := by
  refine ⟨thrustInv_not_both s (thrustInv_of_reachable sqrt s h), ?_⟩
  intro hge es
  exact thrustInv_booster_off _
    (thrustInv_of_reachable sqrt _ (reachable_run sqrt es s h))
    (le_trans hge (run_phase_le sqrt es s))

/-- Witness of C15, over the reals with the real square root: the state after
the launch request and 83 ticks is reachable and in `ORBITAL_INSERTION` or
later (the booster has climbed past the separation altitude by then); the
booster does not thrust after two more ticks and a launch request. -/
theorem booster_thrust_ends_at_insertion_witness :
    (run Real.sqrt (Event.launchLower :: List.replicate 83 Event.tick)
      (resetSimulation (startup : Sim ℝ))).currentState.toNat ≥
      GameState.ORBITAL_INSERTION.toNat ∧
    ¬ ((run Real.sqrt (Event.launchLower :: List.replicate 83 Event.tick)
          (resetSimulation (startup : Sim ℝ))).mainBooster.hasThrust = true ∧
        (run Real.sqrt (Event.launchLower :: List.replicate 83 Event.tick)
          (resetSimulation (startup : Sim ℝ))).upperStage.hasThrust = true) ∧
    (run Real.sqrt [Event.tick, Event.launchUpper, Event.tick]
      (run Real.sqrt (Event.launchLower :: List.replicate 83 Event.tick)
        (resetSimulation (startup : Sim ℝ)))).mainBooster.hasThrust = false :=
  have h := booster_thrust_ends_at_insertion Real.sqrt
    (run Real.sqrt (Event.launchLower :: List.replicate 83 Event.tick)
      (resetSimulation (startup : Sim ℝ)))
    ⟨startup, Event.launchLower :: List.replicate 83 Event.tick, rfl⟩
  ⟨insertion_after_climb Real.sqrt real_isSqrt, h.1,
    h.2 (insertion_after_climb Real.sqrt real_isSqrt) _⟩

end Properties

end RocketSim
